import Mathlib

/-! # prometheus_bot: the alert handler and the inbound listener of `main.go`

A shallow embedding of `main.go`: the `POST /alert/:chatid` handler (label and
annotation reducer, per-alert summary, fixed layout and template branch,
delivery) and the `telegramBot` listener, together with the parts of the Go
standard library the handler calls (`fmt.Sprintf`, `strings.ToUpper`,
`strings.Split`, `strings.Join`, `sort.Strings`, decoding JSON into an existing
value, `json.Marshal`).

Go strings are modelled by `String`. Every string the handler sees comes out of
the JSON decoder, which only produces valid UTF-8, so a Go string is
determined by its sequence of code points; where Go works on the bytes
(`<` on strings) the bytes are computed by `bytes`.
-/

set_option linter.dupNamespace false

namespace PrometheusBot

/-! ## Dynamic values (`interface{}`) and `fmt` -/

/-- A `float64`. The handler never computes with numbers, it only prints
them, so a number is carried as the text the verb `%v` prints for it (the
shortest `%g` form: `3`, `1.5`, `1e+06`, and `+Inf`, `-Inf`, `NaN` for the
values that are not finite). -/
structure Float64 where
  formatG : String
  deriving DecidableEq, Repr

/-- The dynamic values that reach `fmt`: what the JSON decoder stores in an
`interface{}` for a scalar (`nil` for `null`, `string`, `float64` for every
number, `bool`), `int` for `len(...)` and `int64` for a chat id. -/
inductive Any where
  | nil
  | string (s : String)
  | float64 (x : Float64)
  | bool (b : Bool)
  | int (n : Int)
  | int64 (n : Int)
  deriving DecidableEq, Repr

/-- Decimal text of an integer, the output of `%d`. -/
def fmtInt (n : Int) : String :=
  if n < 0 then "-" ++ Nat.repr n.natAbs else Nat.repr n.natAbs

/-- The name `reflect.TypeOf(arg).String()` prints for the dynamic type. -/
def typeName : Any → String
  | .nil => "<nil>"
  | .string _ => "string"
  | .float64 _ => "float64"
  | .bool _ => "bool"
  | .int _ => "int"
  | .int64 _ => "int64"

/-- Output of the verb `%v`. -/
def verbV : Any → String
  | .nil => "<nil>"
  | .string s => s
  | .float64 x => x.formatG
  | .bool b => if b then "true" else "false"
  | .int n => fmtInt n
  | .int64 n => fmtInt n

/-- The method `(*pp).badVerb`: the text printed when the verb does not apply to the type
of the argument, `%!verb(type=value)`, and `%!verb(<nil>)` for a nil argument. -/
def badVerb (verb : Char) (a : Any) : String :=
  match a with
  | .nil => "%!" ++ String.singleton verb ++ "(<nil>)"
  | a => "%!" ++ String.singleton verb ++ "(" ++ typeName a ++ "=" ++ verbV a ++ ")"

/-- The method `(*pp).printArg` for the verbs the formats of this program
use: `%v` prints every value, `%s` applies to strings only, `%d` to integers
only. Other verbs do not occur and are answered like a verb that does not
apply. -/
def printArg (a : Any) (verb : Char) : String :=
  if verb = 'v' then verbV a
  else if verb = 's' then
    match a with
    | .string s => s
    | a => badVerb verb a
  else if verb = 'd' then
    match a with
    | .int n => fmtInt n
    | .int64 n => fmtInt n
    | a => badVerb verb a
  else badVerb verb a

/-- The arguments left over when the format is exhausted, as `%!(EXTRA ...)`
lists them. -/
def extraArgs : List Any → String
  | [] => ""
  | [a] => typeName a ++ (match a with | .nil => "" | a => "=" ++ verbV a)
  | a :: b :: rest =>
    typeName a ++ (match a with | .nil => "" | a => "=" ++ verbV a) ++ ", " ++ extraArgs (b :: rest)

/-- The method `(*pp).doPrintf` for formats made of plain text, `%%` and one-letter verbs
(no format of this program has flags, a width or a precision): text is copied,
each verb consumes one argument. -/
def doPrintf : List Char → List Any → String
  | [], [] => ""
  | [], a :: as => "%!(EXTRA " ++ extraArgs (a :: as) ++ ")"
  | c :: rest, args =>
    if c = '%' then
      match rest, args with
      | [], _ => "%!(NOVERB)"
      | v :: rest', [] =>
        if v = '%' then "%" ++ doPrintf rest' []
        else "%!" ++ String.singleton v ++ "(MISSING)" ++ doPrintf rest' []
      | v :: rest', a :: as =>
        if v = '%' then "%" ++ doPrintf rest' (a :: as)
        else printArg a v ++ doPrintf rest' as
    else String.singleton c ++ doPrintf rest args

/-- The function `fmt.Sprintf`. -/
def Sprintf (format : String) (args : List Any) : String :=
  doPrintf format.data args

/-! ## `strings` -/

/-- The function `unicode.ToUpper`: ASCII is mapped by arithmetic, every other rune through
the Unicode case table `unicode.To(unicode.UpperCase, r)`, which is a
parameter here. -/
def unicodeToUpper (caseTable : Char → Char) (r : Char) : Char :=
  if r.toNat ≤ 0x7F then
    if 'a'.toNat ≤ r.toNat ∧ r.toNat ≤ 'z'.toNat then Char.ofNat (r.toNat - ('a'.toNat - 'A'.toNat))
    else r
  else caseTable r

/-- The function `strings.ToUpper`: every rune mapped by `unicode.ToUpper`. -/
def ToUpper (caseTable : Char → Char) (s : String) : String :=
  ⟨s.data.map (unicodeToUpper caseTable)⟩

/-- The loop of `strings.genSplit` for a non-empty separator: `cur` holds the
piece being read (reversed), `skip` the number of characters of a separator
just found that are still to be passed over. -/
def genSplit (sep : List Char) : List Char → Nat → List Char → List (List Char)
  | [], _, cur => [cur.reverse]
  | _ :: cs, skip + 1, cur => genSplit sep cs skip cur
  | c :: cs, 0, cur =>
    if sep.isPrefixOf (c :: cs) then cur.reverse :: genSplit sep cs (sep.length - 1) []
    else genSplit sep cs 0 (c :: cur)

/-- The function `strings.Split`: the pieces of `s` between the occurrences of `sep`; with
an empty separator, the characters of `s`. -/
def Split (s sep : String) : List String :=
  if sep.data = [] then s.data.map String.singleton
  else (genSplit sep.data s.data 0 []).map String.mk

/-- The function `strings.Join`: the elements with `sep` between them. -/
def Join : List String → String → String
  | [], _ => ""
  | [a], _ => a
  | a :: b :: rest, sep => a ++ sep ++ Join (b :: rest) sep

/-! ## Byte order on strings and `sort.Strings` -/

/-- UTF-8 encoding of one code point. -/
def utf8Rune (n : Nat) : List Nat :=
  if n < 0x80 then [n]
  else if n < 0x800 then [0xC0 + n / 64, 0x80 + n % 64]
  else if n < 0x10000 then [0xE0 + n / 4096, 0x80 + n / 64 % 64, 0x80 + n % 64]
  else [0xF0 + n / 262144, 0x80 + n / 4096 % 64, 0x80 + n / 64 % 64, 0x80 + n % 64]

/-- The bytes of the Go string holding the given characters. -/
def bytesOfChars : List Char → List Nat
  | [] => []
  | c :: cs => utf8Rune c.toNat ++ bytesOfChars cs

/-- The bytes of a Go string. -/
def bytes (s : String) : List Nat := bytesOfChars s.data

/-- Lexicographic comparison of two byte sequences. -/
def bytesLess : List Nat → List Nat → Bool
  | [], [] => false
  | [], _ :: _ => true
  | _ :: _, [] => false
  | x :: xs, y :: ys => if x < y then true else if y < x then false else bytesLess xs ys

/-- Go's `a < b` on strings: byte-wise lexicographic comparison. -/
def stringLess (a b : String) : Bool := bytesLess (bytes a) (bytes b)

/-- Insertion of a key into an ascending list. -/
def insertString (k : String) : List String → List String
  | [] => [k]
  | x :: xs => if stringLess x k then x :: insertString k xs else k :: x :: xs

/-- The function `sort.Strings`: the keys in increasing order. The library sorts in place
with an unspecified algorithm; the result of any correct sort of strings is
the same list (`sortStrings_unique`), computed here by insertion. -/
def sortStrings (keys : List String) : List String :=
  keys.foldr insertString []

/-! ## Maps (`map[string]interface{}`) -/

/-- A Go map with string keys: its entries, no key twice. The order of
`entries` is the order in which `range` happens to enumerate the map. -/
structure GoMap where
  entries : List (String × Any)
  nodup : (entries.map Prod.fst).Nodup

namespace GoMap

/-- The nil (or empty) map. -/
def empty : GoMap := ⟨[], List.nodup_nil⟩

/-- The keys in enumeration order: `for k := range m`. -/
def keys (m : GoMap) : List String := m.entries.map Prod.fst

/-- The comma-ok lookup `v, ok := m[k]`. -/
def lookup (m : GoMap) (k : String) : Option Any :=
  (m.entries.find? (fun e => e.1 = k)).map Prod.snd

/-- The index expression `m[k]`: the zero value `nil` for a missing key. -/
def index (m : GoMap) (k : String) : Any := (m.lookup k).getD Any.nil

/-- The assignment `m[k] = v`. -/
def set (m : GoMap) (k : String) (v : Any) : GoMap :=
  ⟨(k, v) :: m.entries.filter (fun e => e.1 ≠ k), by
    simp only [List.map_cons, List.nodup_cons, List.mem_map, List.mem_filter,
      decide_eq_true_eq, not_exists, not_and]
    refine ⟨fun e he h => he.2 h, ?_⟩
    exact (m.nodup.sublist ((List.filter_sublist m.entries).map Prod.fst))⟩

/-- The map holding the given entries, a later entry replacing an earlier one
with the same key. -/
def ofList (kvs : List (String × Any)) : GoMap :=
  kvs.foldl (fun m kv => m.set kv.1 kv.2) empty

end GoMap

/-! ## The payload types of `main.go` -/

/-- A slice `[]T`: the elements below its length, and the stale elements the
backing array still holds between length and capacity (they are invisible to
`len` and `range`, but the JSON decoder decodes into them). -/
structure Slice (α : Type) where
  data : List α
  spare : List α

/-- The struct `Alert`. -/
structure Alert where
  Annotations : GoMap
  EndsAt : String
  GeneratorURL : String
  Labels : GoMap
  StartsAt : String

/-- The struct `Alerts`. -/
structure Alerts where
  Alerts : Slice Alert
  CommonAnnotations : GoMap
  CommonLabels : GoMap
  ExternalURL : String
  GroupKey : Int
  GroupLabels : GoMap
  Receiver : String
  Status : String
  Version : Int

/-- The zero value of `Alert`. -/
def zeroAlert : Alert :=
  { Annotations := GoMap.empty, EndsAt := "", GeneratorURL := "", Labels := GoMap.empty,
    StartsAt := "" }

/-- The zero value of `Alerts`: the variable `alerts` when `main` starts. -/
def zeroAlerts : Alerts :=
  { Alerts := ⟨[], []⟩, CommonAnnotations := GoMap.empty, CommonLabels := GoMap.empty,
    ExternalURL := "", GroupKey := 0, GroupLabels := GoMap.empty, Receiver := "",
    Status := "", Version := 0 }

/-! ## Decoding a request body into the variable `alerts`

`binding.JSON.Bind(c.Request, &alerts)` runs `json.NewDecoder(body).Decode`
on the address of the variable `alerts` of `main`, which every request shares.
The decoder stores what the body holds and leaves the rest of the destination
as it is: a field the body lacks keeps its value, a JSON object is added to the
map already there, and an array element is decoded into the element the
backing array holds at that index. -/

/-- What a JSON object holds for one field of the destination: nothing (the
key is missing, or its value has the wrong type and is skipped), `null`, or a
value. -/
inductive Field (α : Type) where
  | absent
  | null
  | value (a : α)

/-- The JSON object for one `Alert`, by the field each key is bound to
(`sendsAt` is the key of `EndsAt`). -/
structure AlertJSON where
  annotations : Field (List (String × Any))
  sendsAt : Field String
  generatorURL : Field String
  labels : Field (List (String × Any))
  startsAt : Field String

/-- The JSON object of a request body. An element of `alerts` that is not an
object (`null`, or a value of another type) is `none`. -/
structure AlertsJSON where
  alerts : Field (List (Option AlertJSON))
  commonAnnotations : Field (List (String × Any))
  commonLabels : Field (List (String × Any))
  externalURL : Field String
  groupKey : Field Int
  groupLabels : Field (List (String × Any))
  receiver : Field String
  status : Field String
  version : Field Int

/-- Decoding into a `string` or `int` field: `null` has no effect. -/
def decodeScalar {α : Type} (old : α) : Field α → α
  | .value a => a
  | _ => old

/-- Decoding into a map field: `null` sets the map to nil, an object keeps the
existing map and stores its members in it, in the order of the text. -/
def decodeMap (old : GoMap) : Field (List (String × Any)) → GoMap
  | .absent => old
  | .null => GoMap.empty
  | .value kvs => kvs.foldl (fun m kv => m.set kv.1 kv.2) old

/-- Decoding a JSON object into an existing `Alert`. -/
def decodeAlert (old : Alert) (j : AlertJSON) : Alert :=
  { Annotations := decodeMap old.Annotations j.annotations
    EndsAt := decodeScalar old.EndsAt j.sendsAt
    GeneratorURL := decodeScalar old.GeneratorURL j.generatorURL
    Labels := decodeMap old.Labels j.labels
    StartsAt := decodeScalar old.StartsAt j.startsAt }

/-- Decoding one array element into the element found at its index. -/
def decodeElem (old : Alert) : Option AlertJSON → Alert
  | none => old
  | some j => decodeAlert old j

/-- The loop of `(*decodeState).array`: element `i` of the array is decoded
into element `i` of the backing array, a zero element once the backing array
is exhausted. -/
def decodeElems : List Alert → List (Option AlertJSON) → List Alert
  | _, [] => []
  | [], j :: js => decodeElem zeroAlert j :: decodeElems [] js
  | b :: bs, j :: js => decodeElem b j :: decodeElems bs js

/-- Decoding into the slice field: `null` sets it to nil, an empty array to a
new empty slice, and an array of `n > 0` elements decodes them over the
backing array and sets the length to `n`. -/
def decodeSlice (old : Slice Alert) : Field (List (Option AlertJSON)) → Slice Alert
  | .absent => old
  | .null => ⟨[], []⟩
  | .value [] => ⟨[], []⟩
  | .value (j :: js) =>
    ⟨decodeElems (old.data ++ old.spare) (j :: js), (old.data ++ old.spare).drop (j :: js).length⟩

/-- Decoding a request body into the existing value of `alerts`. -/
def decodeAlerts (old : Alerts) (j : AlertsJSON) : Alerts :=
  { Alerts := decodeSlice old.Alerts j.alerts
    CommonAnnotations := decodeMap old.CommonAnnotations j.commonAnnotations
    CommonLabels := decodeMap old.CommonLabels j.commonLabels
    ExternalURL := decodeScalar old.ExternalURL j.externalURL
    GroupKey := decodeScalar old.GroupKey j.groupKey
    GroupLabels := decodeMap old.GroupLabels j.groupLabels
    Receiver := decodeScalar old.Receiver j.receiver
    Status := decodeScalar old.Status j.status
    Version := decodeScalar old.Version j.version }

/-- The call `binding.JSON.Bind(c.Request, &alerts)`; the handler drops its error. A
body that is not a JSON object (`none`) changes nothing. -/
def Bind (old : Alerts) : Option AlertsJSON → Alerts
  | none => old
  | some j => decodeAlerts old j

/-! ## The handler of `POST /alert/:chatid`: composing the text -/

/-- Lines 145-149 (and 155-159, 167-171): the keys of a map, collected by
`range` and sorted by `sort.Strings`. -/
def sortedKeys (m : GoMap) : List String :=
  sortStrings (m.keys.foldl (fun keys k => keys ++ [k]) [])

/-- Lines 150-153: the slice `groupLabels`. -/
def groupLabels (alerts : Alerts) : List String :=
  (sortedKeys alerts.GroupLabels).foldl
    (fun acc k => acc ++ [Sprintf "%s=<code>%s</code>" [.string k, alerts.GroupLabels.index k]]) []

/-- Lines 160-165: the slice `commonLabels`. -/
def commonLabels (alerts : Alerts) : List String :=
  (sortedKeys alerts.CommonLabels).foldl
    (fun acc k =>
      if !(alerts.GroupLabels.lookup k).isSome then
        acc ++ [Sprintf "%s=<code>%s</code>" [.string k, alerts.CommonLabels.index k]]
      else acc) []

/-- Lines 172-175: the slice `commonAnnotations`. -/
def commonAnnotations (alerts : Alerts) : List String :=
  (sortedKeys alerts.CommonAnnotations).foldl
    (fun acc k =>
      acc ++ [Sprintf "\n%s: <code>%s</code>" [.string k, alerts.CommonAnnotations.index k]]) []

/-- The type assertion `instanceString, _ := instance.(string)`. -/
def assertString : Any → String
  | .string s => s
  | _ => ""

/-- Lines 179-188: the body of the loop over `alerts.Alerts`, run for the index
`i` and the alert `a` on the slice `alertDetails`. -/
def alertDetailsBody (alertDetails : List String) (i : Nat) (a : Alert) : List String :=
  let alertDetails :=
    match a.Labels.lookup "instance" with
    | some inst =>
      alertDetails.set i (alertDetails.getD i "" ++ (Split (assertString inst) ":").headD "")
    | none => alertDetails
  let alertDetails :=
    match a.Labels.lookup "job" with
    | some job => alertDetails.set i (alertDetails.getD i "" ++ Sprintf "[%s]" [job])
    | none => alertDetails
  if a.GeneratorURL ≠ "" then
    alertDetails.set i
      (Sprintf "<a href='%s'>%s</a>" [.string a.GeneratorURL, .string (alertDetails.getD i "")])
  else alertDetails

/-- Lines 178-189: the loop `for i, a := range alerts.Alerts`, from the index
`i` on. -/
def alertDetailsLoop : Nat → List Alert → List String → List String
  | _, [], alertDetails => alertDetails
  | i, a :: rest, alertDetails => alertDetailsLoop (i + 1) rest (alertDetailsBody alertDetails i a)

/-- Lines 177-189: the slice `alertDetails`, made of `len(alerts.Alerts)` empty
strings and filled by the loop. -/
def alertDetails (alerts : Alerts) : List String :=
  alertDetailsLoop 0 alerts.Alerts.data (List.replicate alerts.Alerts.data.length "")

/-- The fragment of one alert: what the loop body leaves in a slice of one
empty string. -/
def alertDetail (a : Alert) : String :=
  (alertDetailsBody [""] 0 a).headD ""

/-- Lines 192-202: the text of the fixed layout. -/
def fixedLayout (caseTable : Char → Char) (alerts : Alerts) : String :=
  Sprintf "<a href='%s/#/alerts?receiver=%s'>[%s:%d]</a>\ngrouped by: %s\nlabels: %s%s\n%s"
    [.string alerts.ExternalURL,
     .string alerts.Receiver,
     .string (ToUpper caseTable alerts.Status),
     .int alerts.Alerts.data.length,
     .string (Join (groupLabels alerts) ", "),
     .string (Join (commonLabels alerts) ", "),
     .string (Join (commonAnnotations alerts) ""),
     .string (Join (alertDetails alerts) ", ")]

/-! ## `json.Marshal(alerts)` (line 138)

The handler encodes `alerts` for its log and returns when the encoder fails.
Of the values the model holds the encoder rejects the float64 values `+Inf`,
`-Inf` and `NaN` ("unsupported value"); everything else is encoded. -/

/-- Encoding one `interface{}` value: the error, if any. -/
def marshalValue : Any → Except String Unit
  | .float64 x =>
    if x.formatG = "+Inf" ∨ x.formatG = "-Inf" ∨ x.formatG = "NaN" then
      .error ("json: unsupported value: " ++ x.formatG)
    else .ok ()
  | _ => .ok ()

/-- Encoding values one after the other, up to the first error. -/
def marshalValues : List Any → Except String Unit
  | [] => .ok ()
  | v :: vs =>
    match marshalValue v with
    | .error err => .error err
    | .ok _ => marshalValues vs

/-- Encoding a map: its values in the order of the sorted keys. -/
def marshalMap (m : GoMap) : Except String Unit :=
  marshalValues ((sortedKeys m).map m.index)

/-- Encoding the elements of `alerts.Alerts`: of each the maps `Annotations`
and `Labels` (strings always encode). -/
def marshalAlertList : List Alert → Except String Unit
  | [] => .ok ()
  | a :: rest =>
    match marshalMap a.Annotations with
    | .error err => .error err
    | .ok _ =>
      match marshalMap a.Labels with
      | .error err => .error err
      | .ok _ => marshalAlertList rest

/-- The call `json.Marshal(alerts)`, as its error: the fields are encoded in
the order of the struct. -/
def Marshal (alerts : Alerts) : Except String Unit :=
  match marshalAlertList alerts.Alerts.data with
  | .error err => .error err
  | .ok _ =>
    match marshalMap alerts.CommonAnnotations with
    | .error err => .error err
    | .ok _ =>
      match marshalMap alerts.CommonLabels with
      | .error err => .error err
      | .ok _ => marshalMap alerts.GroupLabels

/-! ## The Telegram client (`tgbotapi`) -/

/-- The fields of `tgbotapi.User` the program reads. -/
structure User where
  ID : Int
  UserName : String
  deriving DecidableEq, Repr

/-- The fields of `tgbotapi.Chat` the program reads (`Type_` is the field
`Type`). -/
structure Chat where
  ID : Int
  Type_ : String
  deriving DecidableEq, Repr

/-- The fields of `tgbotapi.Message` the program reads; `Chat` and
`NewChatMember` are pointers, `none` is nil. -/
structure Message where
  MessageID : Int
  Chat : Option Chat
  Text : String
  NewChatMember : Option User
  deriving DecidableEq, Repr

/-- The struct `tgbotapi.Update`: `Message` is a pointer, nil for an update of
another kind (an edited message, a channel post, an inline query, a callback). -/
structure Update where
  UpdateID : Int
  Message : Option Message
  deriving DecidableEq, Repr

/-- The fields of `tgbotapi.MessageConfig` the program sets. -/
structure MessageConfig where
  ChatID : Int
  Text : String
  ParseMode : String
  DisableWebPagePreview : Bool
  deriving DecidableEq, Repr

/-- The constructor `tgbotapi.NewMessage`: a plain message, previews on. -/
def NewMessage (chatID : Int) (text : String) : MessageConfig :=
  { ChatID := chatID, Text := text, ParseMode := "", DisableWebPagePreview := false }

/-- The constant `tgbotapi.ModeHTML`. -/
def ModeHTML : String := "HTML"

/-- The zero value of `tgbotapi.Message`, which `bot.Send` returns next to an
error. -/
def zeroMessage : Message :=
  { MessageID := 0, Chat := none, Text := "", NewChatMember := none }

/-- The outcome of the calls of `bot.Send` one request makes: `send n msg` is
what the call number `n` of the request returns when it is given `msg`. -/
abbrev SendFn := Nat → MessageConfig → Except String Message

/-! ## The handler of `POST /alert/:chatid` -/

/-- A value of a `gin.H` handed to `c.JSON`. -/
inductive HValue where
  | string (s : String)
  | message (m : Message)
  deriving DecidableEq, Repr

/-- What the handler answers: `c.String(code, body)`, `c.JSON(code, h)`, a
panic (gin's recovery middleware turns it into status 500), or nothing: the
handler returns without writing, and the client gets status 200 with an empty
body. -/
inductive Response where
  | string (code : Nat) (body : String)
  | json (code : Nat) (h : List (String × HValue))
  | panic (err : String)
  | empty
  deriving DecidableEq, Repr

/-- The constant `http.StatusOK`. -/
def StatusOK : Nat := 200

/-- The constant `http.StatusServiceUnavailable`. -/
def StatusServiceUnavailable : Nat := 503

/-- A parsed template handle: `Execute(writer, alerts)` as the text it writes
to the writer and the error it returns. -/
abbrev Template := Alerts → String × Option String

/-- The variables of `main` the alert handler reads and writes (lines 56-59);
`writer` writes to `bytesBuff`. -/
structure Proc where
  bytesBuff : String
  msgtext : String
  alerts : Alerts

/-- The variables when `main` has started. -/
def initProc : Proc := { bytesBuff := "", msgtext := "", alerts := zeroAlerts }

/-- One request: the result of `strconv.ParseInt(c.Param("chatid"), 10, 64)`
and the body (`none` when it is not a JSON object). -/
structure Request where
  chatid : Except String Int
  body : Option AlertsJSON

/-- What handling one request leaves: the variables, the answer and the
messages handed to `bot.Send`, in order. -/
structure Handled where
  proc : Proc
  response : Response
  sent : List MessageConfig

/-- Lines 213-230: the delivery of `msgtext`. -/
def deliver (send : SendFn) (chatid : Int) (msgtext : String) : Response × List MessageConfig :=
  let msg := NewMessage chatid msgtext
  let msg := { msg with ParseMode := ModeHTML }
  let msg := { msg with DisableWebPagePreview := true }
  match send 0 msg with
  | .ok _ => (.string StatusOK "telegram msg sent.", [msg])
  | .error err =>
    let sendmsg := zeroMessage
    let response := Response.json StatusServiceUnavailable
      [("err", .string err), ("message", .message sendmsg), ("srcmsg", .string msgtext)]
    let notice := NewMessage chatid "Error sending message, checkout logs"
    match send 1 notice with
    | _ => (response, [msg, notice])

/-- Lines 123-231: the handler. -/
def alertHandler (caseTable : Char → Char) (template : Option Template) (send : SendFn)
    (p : Proc) (req : Request) : Handled :=
  match req.chatid with
  | .error err => ⟨p, .json StatusServiceUnavailable [("err", .string err)], []⟩
  | .ok chatid =>
    let alerts := Bind p.alerts req.body
    match Marshal alerts with
    | .error _ => ⟨{ p with alerts := alerts }, .empty, []⟩
    | .ok _ =>
      match template with
      | none =>
        let msgtext := fixedLayout caseTable alerts
        let r := deliver send chatid msgtext
        ⟨{ p with alerts := alerts, msgtext := msgtext }, r.1, r.2⟩
      | some temaplteHadle =>
        let out := temaplteHadle alerts
        let bytesBuff := p.bytesBuff ++ out.1
        match out.2 with
        | some err => ⟨{ p with alerts := alerts, bytesBuff := bytesBuff }, .panic err, []⟩
        | none =>
          let msgtext := bytesBuff
          let r := deliver send chatid msgtext
          ⟨{ alerts := alerts, bytesBuff := bytesBuff, msgtext := msgtext }, r.1, r.2⟩

/-- The requests of one process, handled one after the other, each with the
outcome of its sends. -/
def serve (caseTable : Char → Char) (template : Option Template) :
    Proc → List (Request × SendFn) → List Handled
  | _, [] => []
  | p, (req, send) :: rest =>
    let h := alertHandler caseTable template send p req
    h :: serve caseTable template h.proc rest

/-! ## The listener `telegramBot` -/

/-- Lines 245-250: the body of the loop for one update; `none` is the panic
of dereferencing a nil pointer. -/
def onUpdate (self : User) (update : Update) : Option (List MessageConfig) :=
  match update.Message with
  | none => none
  | some message =>
    match message.NewChatMember with
    | none => some []
    | some member =>
      if member.UserName = self.UserName then
        match message.Chat with
        | none => none
        | some chat =>
          if chat.Type_ = "group" then
            some [NewMessage chat.ID (Sprintf "Chat id is '%d'" [.int64 chat.ID])]
          else some []
      else some []

/-- How far the listener got on a sequence of updates: the messages it handed
to `bot.Send`, and whether it panicked. -/
structure ListenerRun where
  sent : List MessageConfig
  panicked : Bool
  deriving DecidableEq, Repr

/-- Lines 244-251: the loop `for update := range updates` over the updates
received so far; `bot.Send` is called and its result dropped. -/
def telegramBot (self : User) : List Update → ListenerRun
  | [] => ⟨[], false⟩
  | update :: rest =>
    match onUpdate self update with
    | none => ⟨[], true⟩
    | some msgs =>
      let r := telegramBot self rest
      ⟨msgs ++ r.sent, r.panicked⟩

/-! ## Sample inputs -/

/-- The alert group of the scenario: status `firing`, external URL
`http://am`, receiver `ops`, the single alert `al`. -/
def scenarioAlerts (al : Alert) : Alerts :=
  { zeroAlerts with
    Status := "firing", ExternalURL := "http://am", Receiver := "ops",
    Alerts := ⟨[al], []⟩,
    GroupLabels := GoMap.ofList [("alertname", .string "Down")],
    CommonLabels := GoMap.ofList [("alertname", .string "Down"), ("severity", .string "page")],
    CommonAnnotations := GoMap.ofList [("summary", .string "host down")] }

/-- The alert group of the scenario with the common labels stored in the
other order. -/
def scenarioAlertsSwapped (al : Alert) : Alerts :=
  { scenarioAlerts al with
    CommonLabels := GoMap.ofList [("severity", .string "page"), ("alertname", .string "Down")] }

/-- An alert of a node exporter: instance `10.0.0.5:9100`, job `node`. -/
def nodeAlert (url : String) : Alert :=
  { zeroAlert with
    GeneratorURL := url,
    Labels := GoMap.ofList [("instance", .string "10.0.0.5:9100"), ("job", .string "node")] }

/-- An alert group whose only content is one group label. -/
def groupLabelOnly (k : String) (v : Any) : Alerts :=
  { zeroAlerts with GroupLabels := GoMap.ofList [(k, v)] }

/-- An alert group whose only content is one common label. -/
def commonLabelOnly (k : String) (v : Any) : Alerts :=
  { zeroAlerts with CommonLabels := GoMap.ofList [(k, v)] }

/-- An alert group whose only content is one common annotation. -/
def commonAnnotationOnly (k : String) (v : Any) : Alerts :=
  { zeroAlerts with CommonAnnotations := GoMap.ofList [(k, v)] }

/-- An alert whose only label is `job`. -/
def jobAlert (job : Any) : Alert :=
  { zeroAlert with Labels := GoMap.ofList [("job", job)] }

/-- The JSON object without any key. -/
def emptyJSON : AlertsJSON :=
  { alerts := .absent, commonAnnotations := .absent, commonLabels := .absent,
    externalURL := .absent, groupKey := .absent, groupLabels := .absent, receiver := .absent,
    status := .absent, version := .absent }

/-- A request for chat 42 whose body holds a status, a receiver when one is
given, and one group label. -/
def labelRequest (status : String) (receiver : Field String) (k v : String) : Request :=
  { chatid := .ok 42,
    body := some { emptyJSON with
      status := .value status, receiver := receiver, alerts := .value [],
      groupLabels := .value [(k, .string v)] } }

/-- A request for chat 42 whose body holds only a status. -/
def statusRequest (status : String) : Request :=
  { chatid := .ok 42, body := some { emptyJSON with status := .value status } }

/-- The template whose text is the action printing the field `Status`. -/
def statusTemplate : Template := fun alerts => (alerts.Status, none)

/-- A template that fails after writing nothing. -/
def failingTemplate : Template := fun _ => ("", some "template: error")

/-- A request for chat 42 whose body holds the group label `k` with a number
too large for a float64, which the decoder stores as `+Inf`. -/
def infiniteRequest : Request :=
  { chatid := .ok 42,
    body := some { emptyJSON with groupLabels := .value [("k", .float64 ⟨"+Inf"⟩)] } }

/-- An alert group with two group labels, four common labels of which two are
group labels, two annotations and two alerts. -/
def richAlerts : Alerts :=
  { zeroAlerts with
    Status := "Zz-firing", ExternalURL := "http://am", Receiver := "ops",
    Alerts := ⟨[nodeAlert "U", jobAlert (.string "api")], []⟩,
    GroupLabels := GoMap.ofList [("zone", .string "eu"), ("alertname", .string "Down")],
    CommonLabels := GoMap.ofList [("team", .string "db"), ("zone", .string "eu"),
      ("alertname", .string "Down"), ("severity", .string "page")],
    CommonAnnotations := GoMap.ofList
      [("summary", .string "host down"), ("description", .string "disk")] }

/-- An alert group with a node-exporter alert with generator URL `U`, an alert
without labels and URL, and an alert whose `job` label is the number 3. -/
def fragmentAlerts : Alerts :=
  { zeroAlerts with Alerts := ⟨[nodeAlert "U", zeroAlert, jobAlert (.float64 ⟨"3"⟩)], []⟩ }

/-- An alert group whose single alert has the number 3 as its `job` label. -/
def numericJobAlerts : Alerts :=
  { zeroAlerts with Alerts := ⟨[jobAlert (.float64 ⟨"3"⟩)], []⟩ }

/-- Sends that all succeed. -/
def sendOk : SendFn := fun _ msg => .ok { zeroMessage with Text := msg.Text }

/-- A first send that fails followed by sends that succeed. -/
def sendFailThenOk : SendFn := fun n msg =>
  if n = 0 then .error "Bad Request: chat not found" else .ok { zeroMessage with Text := msg.Text }

/-- The bot account. -/
def botUser : User := { ID := 7, UserName := "prometheus_bot" }

/-- The update reporting that the bot was added to the group `-1001`. -/
def joinUpdate : Update :=
  { UpdateID := 2,
    Message := some { MessageID := 5, Chat := some { ID := -1001, Type_ := "group" }, Text := "",
                      NewChatMember := some botUser } }

/-- An update that carries no message (an edited message, for instance). -/
def editedUpdate : Update := { UpdateID := 1, Message := none }

set_option maxRecDepth 100000

/-! ## Strings as byte sequences -/

theorem char_toNat_lt (c : Char) : c.toNat < 0x110000 := by
  have h : c.val.toNat < 0xd800 ∨ (0xdfff < c.val.toNat ∧ c.val.toNat < 0x110000) := c.valid
  show c.val.toNat < 0x110000
  omega

theorem char_toNat_inj {c d : Char} (h : c.toNat = d.toNat) : c = d := by
  rw [← Char.ofNat_toNat c, ← Char.ofNat_toNat d, h]

theorem utf8Rune_append_inj (m n : Nat) (hm : m < 0x110000) (hn : n < 0x110000)
    (xs ys : List Nat) (h : utf8Rune m ++ xs = utf8Rune n ++ ys) : m = n ∧ xs = ys := by
  unfold utf8Rune at h
  split_ifs at h <;>
    simp only [List.cons_append, List.nil_append, List.cons.injEq] at h <;>
    first
      | (exfalso; omega)
      | exact ⟨by omega, by tauto⟩

theorem utf8Rune_ne_nil (n : Nat) : utf8Rune n ≠ [] := by
  unfold utf8Rune
  split_ifs <;> simp

theorem bytesOfChars_inj : ∀ (a b : List Char), bytesOfChars a = bytesOfChars b → a = b
  | [], [], _ => rfl
  | [], d :: ds, h => by
    exfalso
    simp only [bytesOfChars] at h
    have hne := utf8Rune_ne_nil d.toNat
    cases hd : utf8Rune d.toNat with
    | nil => exact hne hd
    | cons x xs => rw [hd] at h; simp at h
  | c :: cs, [], h => by
    exfalso
    simp only [bytesOfChars] at h
    have hne := utf8Rune_ne_nil c.toNat
    cases hc : utf8Rune c.toNat with
    | nil => exact hne hc
    | cons x xs => rw [hc] at h; simp at h
  | c :: cs, d :: ds, h => by
    simp only [bytesOfChars] at h
    obtain ⟨h1, h2⟩ := utf8Rune_append_inj _ _ (char_toNat_lt c) (char_toNat_lt d) _ _ h
    rw [char_toNat_inj h1, bytesOfChars_inj cs ds h2]

theorem bytes_inj {a b : String} (h : bytes a = bytes b) : a = b := by
  cases a with
  | mk x =>
  cases b with
  | mk y =>
  have := bytesOfChars_inj x y h
  rw [this]

theorem bytesLess_irrefl : ∀ (a : List Nat), bytesLess a a = false
  | [] => rfl
  | x :: xs => by simp [bytesLess, bytesLess_irrefl xs]

theorem bytesLess_trans : ∀ (a b c : List Nat),
    bytesLess a b = true → bytesLess b c = true → bytesLess a c = true
  | [], [], _, h, _ => by simp [bytesLess] at h
  | [], _ :: _, [], _, h => by simp [bytesLess] at h
  | [], _ :: _, _ :: _, _, _ => by simp [bytesLess]
  | _ :: _, [], _, h, _ => by simp [bytesLess] at h
  | _ :: _, _ :: _, [], _, h => by simp [bytesLess] at h
  | x :: xs, y :: ys, z :: zs, h1, h2 => by
    simp only [bytesLess] at h1 h2 ⊢
    split_ifs at h1 h2 ⊢ <;> first
      | rfl
      | (exfalso; omega)
      | exact bytesLess_trans xs ys zs h1 h2

theorem bytesLess_total : ∀ (a b : List Nat),
    bytesLess a b = false → bytesLess b a = false → a = b
  | [], [], _, _ => rfl
  | [], _ :: _, h, _ => by simp [bytesLess] at h
  | _ :: _, [], _, h => by simp [bytesLess] at h
  | x :: xs, y :: ys, h1, h2 => by
    simp only [bytesLess] at h1 h2
    split_ifs at h1 h2
    have hxy : x = y := by omega
    rw [hxy, bytesLess_total xs ys h1 h2]

theorem stringLess_irrefl (a : String) : stringLess a a = false :=
  bytesLess_irrefl _

theorem stringLess_trans {a b c : String} (h1 : stringLess a b = true)
    (h2 : stringLess b c = true) : stringLess a c = true :=
  bytesLess_trans _ _ _ h1 h2

theorem stringLess_total {a b : String} (h1 : stringLess a b = false)
    (h2 : stringLess b a = false) : a = b :=
  bytes_inj (bytesLess_total _ _ h1 h2)

theorem stringLess_asymm {a b : String} (h : stringLess a b = true) : stringLess b a = false := by
  by_contra hba
  have hba : stringLess b a = true := by simpa using hba
  have := stringLess_trans h hba
  rw [stringLess_irrefl] at this
  exact Bool.false_ne_true this

/-- Non-strict order: `a` is not after `b`. -/
theorem stringLess_le_trans {a b c : String} (h1 : stringLess b a = false)
    (h2 : stringLess c b = false) : stringLess c a = false := by
  by_contra hca
  have hca : stringLess c a = true := by simpa using hca
  cases hab : stringLess a b with
  | true =>
    have := stringLess_trans hca hab
    rw [h2] at this
    exact Bool.false_ne_true this
  | false =>
    have hEq := stringLess_total hab h1
    rw [hEq] at hca
    rw [h2] at hca
    exact Bool.false_ne_true hca

/-! ## `sort.Strings` -/

theorem insertString_perm (k : String) : ∀ (l : List String), (insertString k l).Perm (k :: l)
  | [] => List.Perm.refl _
  | x :: xs => by
    simp only [insertString]
    split_ifs
    · exact ((insertString_perm k xs).cons x).trans (List.Perm.swap k x xs)
    · exact List.Perm.refl _

theorem sortStrings_perm : ∀ (l : List String), (sortStrings l).Perm l
  | [] => List.Perm.refl _
  | k :: ks => by
    show (insertString k (sortStrings ks)).Perm (k :: ks)
    exact (insertString_perm k _).trans ((sortStrings_perm ks).cons k)

theorem mem_sortStrings {k : String} {l : List String} : k ∈ sortStrings l ↔ k ∈ l :=
  (sortStrings_perm l).mem_iff

theorem insertString_sorted (k : String) : ∀ (l : List String),
    l.Pairwise (fun a b => stringLess b a = false) →
    (insertString k l).Pairwise (fun a b => stringLess b a = false)
  | [], _ => by simp [insertString]
  | x :: xs, h => by
    simp only [insertString]
    rw [List.pairwise_cons] at h
    split_ifs with hxk
    · rw [List.pairwise_cons]
      refine ⟨fun b hb => ?_, insertString_sorted k xs h.2⟩
      rcases List.mem_cons.mp ((insertString_perm k xs).mem_iff.mp hb) with hbk | hbx
      · rw [hbk]; exact stringLess_asymm hxk
      · exact h.1 b hbx
    · have hxk : stringLess x k = false := by simpa using hxk
      rw [List.pairwise_cons]
      refine ⟨fun b hb => ?_, List.pairwise_cons.mpr h⟩
      rcases List.mem_cons.mp hb with hbx | hbx
      · rw [hbx]; exact hxk
      · exact stringLess_le_trans hxk (h.1 b hbx)

theorem sortStrings_sorted : ∀ (l : List String),
    (sortStrings l).Pairwise (fun a b => stringLess b a = false)
  | [] => List.Pairwise.nil
  | k :: ks => insertString_sorted k _ (sortStrings_sorted ks)

theorem sortStrings_nodup {l : List String} (h : l.Nodup) : (sortStrings l).Nodup :=
  (sortStrings_perm l).nodup_iff.mpr h

/-- Sorting keys that are pairwise distinct gives a strictly ascending list. -/
theorem sortStrings_strict {l : List String} (h : l.Nodup) :
    (sortStrings l).Pairwise (fun a b => stringLess a b = true) := by
  have h1 := sortStrings_sorted l
  have h2 : (sortStrings l).Pairwise (fun a b => a ≠ b) := sortStrings_nodup h
  refine (h1.and h2).imp ?_
  intro a b hab
  by_contra hlt
  have hlt : stringLess a b = false := by simpa using hlt
  exact hab.2 (stringLess_total hlt hab.1)

/-- The sorted list is determined by the set of keys: every ascending
arrangement of the same keys is the one `sortStrings` computes. -/
theorem sortStrings_unique {l l' : List String} (hp : l'.Perm l)
    (hs : l'.Pairwise (fun a b => stringLess b a = false)) : l' = sortStrings l := by
  haveI : IsAntisymm String (fun a b => stringLess b a = false) :=
    ⟨fun a b hab hba => stringLess_total hba hab⟩
  exact List.eq_of_perm_of_sorted (hp.trans (sortStrings_perm l).symm) hs (sortStrings_sorted l)

theorem sortStrings_congr {l l' : List String} (hp : l'.Perm l) :
    sortStrings l' = sortStrings l :=
  sortStrings_unique ((sortStrings_perm l').trans hp) (sortStrings_sorted l')

/-! ## Loops that append to a slice -/

theorem foldl_append_map {α β : Type} (f : α → β) : ∀ (l : List α) (acc : List β),
    l.foldl (fun acc k => acc ++ [f k]) acc = acc ++ l.map f
  | [], acc => by simp
  | x :: xs, acc => by
    simp only [List.foldl_cons, List.map_cons]
    rw [foldl_append_map f xs]
    simp

theorem foldl_append_filter {α β : Type} (keep : α → Bool) (f : α → β) :
    ∀ (l : List α) (acc : List β),
    l.foldl (fun acc k => if keep k then acc ++ [f k] else acc) acc
      = acc ++ (l.filter keep).map f
  | [], acc => by simp
  | x :: xs, acc => by
    simp only [List.foldl_cons]
    rw [foldl_append_filter keep f xs]
    cases h : keep x <;> simp [List.filter_cons, h]

/-! ## Maps -/

theorem GoMap.keys_nodup (m : GoMap) : m.keys.Nodup := m.nodup

theorem find_isSome_iff (k : String) : ∀ (l : List (String × Any)),
    ((l.find? (fun e => e.1 = k)).map Prod.snd).isSome = true ↔ k ∈ l.map Prod.fst
  | [] => by simp
  | e :: es => by
    by_cases h : e.1 = k
    · simp [List.find?_cons, h]
    · have h2 : ¬ k = e.1 := fun h3 => h h3.symm
      simp only [List.find?_cons, h, decide_False, List.map_cons, List.mem_cons, h2, false_or]
      exact find_isSome_iff k es

theorem GoMap.lookup_isSome (m : GoMap) (k : String) : (m.lookup k).isSome = true ↔ k ∈ m.keys :=
  find_isSome_iff k m.entries

theorem GoMap.lookup_isNone (m : GoMap) (k : String) : (m.lookup k).isNone = true ↔ k ∉ m.keys := by
  rw [← GoMap.lookup_isSome]
  cases m.lookup k <;> simp

theorem find_eq_of_mem (k : String) (v : Any) : ∀ (l : List (String × Any)),
    (l.map Prod.fst).Nodup → (k, v) ∈ l → (l.find? (fun e => e.1 = k)).map Prod.snd = some v
  | [], _, h => by simp at h
  | e :: es, hnd, h => by
    rw [List.map_cons, List.nodup_cons] at hnd
    rcases List.mem_cons.mp h with he | he
    · subst he; simp [List.find?_cons]
    · have hne : e.1 ≠ k := by
        intro hek
        apply hnd.1
        rw [hek]
        exact List.mem_map_of_mem Prod.fst he
      simp only [List.find?_cons, hne, decide_False]
      exact find_eq_of_mem k v es hnd.2 he

theorem GoMap.lookup_of_mem (m : GoMap) {k : String} {v : Any} (h : (k, v) ∈ m.entries) :
    m.lookup k = some v :=
  find_eq_of_mem k v m.entries m.nodup h

/-- Two maps with the same entries, enumerated in different orders, answer
every lookup alike. -/
theorem GoMap.lookup_congr {m m' : GoMap} (hp : m'.entries.Perm m.entries) (k : String) :
    m'.lookup k = m.lookup k := by
  cases h : m.lookup k with
  | some v =>
    have hmem : (k, v) ∈ m.entries := by
      unfold GoMap.lookup at h
      cases hf : m.entries.find? (fun e => e.1 = k) with
      | none => rw [hf] at h; simp at h
      | some e =>
        rw [hf] at h
        have he1 : e.1 = k := by simpa using List.find?_some hf
        have he2 : e.2 = v := by simpa using h
        have := List.mem_of_find?_eq_some hf
        rw [← he1, ← he2]
        exact this
    exact m'.lookup_of_mem (hp.mem_iff.mpr hmem)
  | none =>
    have h1 : ¬ k ∈ m.keys := by
      rw [← GoMap.lookup_isSome, h]; simp
    have h2 : ¬ k ∈ m'.keys := fun hk => h1 ((hp.map Prod.fst).mem_iff.mp hk)
    rw [← GoMap.lookup_isSome] at h2
    cases h3 : m'.lookup k with
    | none => rfl
    | some v => rw [h3] at h2; simp at h2

theorem GoMap.index_congr {m m' : GoMap} (hp : m'.entries.Perm m.entries) (k : String) :
    m'.index k = m.index k := by
  unfold GoMap.index
  rw [GoMap.lookup_congr hp]

theorem range_keys (m : GoMap) : m.keys.foldl (fun keys k => keys ++ [k]) [] = m.keys := by
  have := foldl_append_map (fun k : String => k) m.keys []
  simpa using this

theorem sortedKeys_eq (m : GoMap) : sortedKeys m = sortStrings m.keys := by
  unfold sortedKeys
  rw [range_keys]

theorem sortedKeys_congr {m m' : GoMap} (hp : m'.entries.Perm m.entries) :
    sortedKeys m' = sortedKeys m := by
  rw [sortedKeys_eq, sortedKeys_eq]
  exact sortStrings_congr (hp.map Prod.fst)

theorem mem_sortedKeys {m : GoMap} {k : String} : k ∈ sortedKeys m ↔ k ∈ m.keys := by
  rw [sortedKeys_eq]
  exact mem_sortStrings

theorem sortedKeys_strict (m : GoMap) :
    (sortedKeys m).Pairwise (fun a b => stringLess a b = true) := by
  rw [sortedKeys_eq]
  exact sortStrings_strict m.keys_nodup

/-! ## `fmt.Sprintf` on the formats of the handler -/

theorem data_singleton (c : Char) : (String.singleton c).data = [c] := rfl

theorem printArg_s_string (s : String) : printArg (.string s) 's' = s := by
  simp [printArg]

theorem fmtInt_natCast (n : Nat) : fmtInt (n : Int) = Nat.repr n := by
  unfold fmtInt
  have h : ¬ ((n : Int) < 0) := by omega
  simp [h]

theorem sprintf_label (k : String) (v : Any) :
    Sprintf "%s=<code>%s</code>" [.string k, v]
      = k ++ "=<code>" ++ printArg v 's' ++ "</code>" := by
  apply String.ext
  simp [Sprintf, doPrintf, String.data_append, data_singleton]
  simp [printArg]

theorem sprintf_annotationLine (k : String) (v : Any) :
    Sprintf "\n%s: <code>%s</code>" [.string k, v]
      = "\n" ++ k ++ ": <code>" ++ printArg v 's' ++ "</code>" := by
  apply String.ext
  simp [Sprintf, doPrintf, String.data_append, data_singleton]
  simp [printArg]

theorem sprintf_job (job : Any) : Sprintf "[%s]" [job] = "[" ++ printArg job 's' ++ "]" := by
  apply String.ext
  simp [Sprintf, doPrintf, String.data_append, data_singleton]

theorem sprintf_link (url d : String) :
    Sprintf "<a href='%s'>%s</a>" [.string url, .string d]
      = "<a href='" ++ url ++ "'>" ++ d ++ "</a>" := by
  apply String.ext
  simp [Sprintf, doPrintf, String.data_append, data_singleton]
  simp [printArg]

theorem sprintf_layout (url receiver status gl cl ca ad : String) (n : Nat) :
    Sprintf "<a href='%s/#/alerts?receiver=%s'>[%s:%d]</a>\ngrouped by: %s\nlabels: %s%s\n%s"
      [.string url, .string receiver, .string status, .int n, .string gl, .string cl,
        .string ca, .string ad]
      = "<a href='" ++ url ++ "/#/alerts?receiver=" ++ receiver ++ "'>[" ++ status ++ ":"
        ++ Nat.repr n ++ "]</a>\ngrouped by: " ++ gl ++ "\nlabels: " ++ cl ++ ca ++ "\n" ++ ad := by
  have hd : printArg (.int (n : Int)) 'd' = Nat.repr n := by
    simp [printArg, fmtInt_natCast]
  apply String.ext
  simp [Sprintf, doPrintf, String.data_append, data_singleton, printArg_s_string, hd]

theorem sprintf_chatid (n : Int) :
    Sprintf "Chat id is '%d'" [.int64 n] = "Chat id is '" ++ fmtInt n ++ "'" := by
  apply String.ext
  simp [Sprintf, doPrintf, String.data_append, data_singleton]
  simp [printArg]

/-! ## The reducer -/

theorem groupLabels_eq_map (alerts : Alerts) :
    groupLabels alerts = (sortedKeys alerts.GroupLabels).map
      (fun k => k ++ "=<code>" ++ printArg (alerts.GroupLabels.index k) 's' ++ "</code>") := by
  unfold groupLabels
  rw [foldl_append_map]
  simp [sprintf_label]

theorem commonAnnotations_eq_map (alerts : Alerts) :
    commonAnnotations alerts = (sortedKeys alerts.CommonAnnotations).map
      (fun k => "\n" ++ k ++ ": <code>" ++ printArg (alerts.CommonAnnotations.index k) 's'
        ++ "</code>") := by
  unfold commonAnnotations
  rw [foldl_append_map]
  simp [sprintf_annotationLine]

theorem commonLabels_eq_map (alerts : Alerts) :
    commonLabels alerts =
      ((sortedKeys alerts.CommonLabels).filter
        (fun k => !(alerts.GroupLabels.lookup k).isSome)).map
      (fun k => k ++ "=<code>" ++ printArg (alerts.CommonLabels.index k) 's' ++ "</code>") := by
  unfold commonLabels
  rw [foldl_append_filter (fun k => !(alerts.GroupLabels.lookup k).isSome)]
  simp [sprintf_label]

theorem groupLabels_congr {a b : Alerts} (h : b.GroupLabels.entries.Perm a.GroupLabels.entries) :
    groupLabels b = groupLabels a := by
  rw [groupLabels_eq_map, groupLabels_eq_map, sortedKeys_congr h]
  simp [GoMap.index_congr h]

theorem commonAnnotations_congr {a b : Alerts}
    (h : b.CommonAnnotations.entries.Perm a.CommonAnnotations.entries) :
    commonAnnotations b = commonAnnotations a := by
  rw [commonAnnotations_eq_map, commonAnnotations_eq_map, sortedKeys_congr h]
  simp [GoMap.index_congr h]

theorem commonLabels_congr {a b : Alerts}
    (hg : b.GroupLabels.entries.Perm a.GroupLabels.entries)
    (hc : b.CommonLabels.entries.Perm a.CommonLabels.entries) :
    commonLabels b = commonLabels a := by
  rw [commonLabels_eq_map, commonLabels_eq_map, sortedKeys_congr hc]
  simp [GoMap.index_congr hc, GoMap.lookup_congr hg]

/-! ## The per-alert summary -/

theorem genSplit_colon_head : ∀ (s cur : List Char),
    (genSplit [':'] s 0 cur).headD [] = cur.reverse ++ s.takeWhile (fun c => c ≠ ':')
  | [], cur => by simp [genSplit]
  | c :: cs, cur => by
    by_cases h : c = ':'
    · simp [genSplit, List.isPrefixOf, h]
    · have ih := genSplit_colon_head cs (c :: cur)
      have h2 : ¬ ':' = c := fun e => h e.symm
      rw [List.headD_eq_head?_getD] at ih
      simp [genSplit, List.isPrefixOf, h, h2, ih]

theorem split_colon_head (s : String) :
    (Split s ":").headD "" = String.mk (s.data.takeWhile (fun c => c ≠ ':')) := by
  have h := genSplit_colon_head s.data []
  have hsep : ¬ (":" : String).data = [] := by decide
  unfold Split
  rw [if_neg hsep]
  have hd : (":" : String).data = [':'] := rfl
  rw [hd]
  simp only [List.reverse_nil, List.nil_append] at h
  rw [← h]
  cases genSplit [':'] s.data 0 [] <;> rfl

theorem split_colon_head_getD (s : String) :
    (Split s ":").head?.getD "" = String.mk (s.data.takeWhile (fun c => c ≠ ':')) := by
  rw [← List.headD_eq_head?_getD]
  exact split_colon_head s

theorem string_empty_append (s : String) : "" ++ s = s := by
  apply String.ext
  simp [String.data_append]

theorem set_append_length {α : Type} : ∀ (pre : List α) (x : α) (post : List α) (y : α),
    (pre ++ x :: post).set pre.length y = pre ++ y :: post
  | [], _, _, _ => rfl
  | p :: ps, x, post, y => by
    show p :: (ps ++ x :: post).set ps.length y = p :: (ps ++ y :: post)
    rw [set_append_length ps x post y]

theorem getD_append_length {α : Type} : ∀ (pre : List α) (x : α) (post : List α) (d : α),
    (pre ++ x :: post).getD pre.length d = x
  | [], _, _, _ => rfl
  | p :: ps, x, post, d => by
    show (ps ++ x :: post).getD ps.length d = x
    exact getD_append_length ps x post d

/-- The loop body changes only the element at its index, and changes it as it
changes the single element of a slice of length one. -/
theorem alertDetailsBody_at (a : Alert) (pre : List String) (x : String) (post : List String) :
    alertDetailsBody (pre ++ x :: post) pre.length a
      = pre ++ (alertDetailsBody [x] 0 a).headD "" :: post := by
  have s0 : ∀ u v : String, [u].set 0 v = [v] := fun _ _ => rfl
  have g0 : ∀ u : String, [u].getD 0 "" = u := fun _ => rfl
  have hd : ∀ u : String, [u].headD "" = u := fun _ => rfl
  unfold alertDetailsBody
  cases a.Labels.lookup "instance" <;> cases a.Labels.lookup "job" <;>
    by_cases hu : a.GeneratorURL = "" <;>
    simp only [hu, ne_eq, not_true_eq_false, not_false_eq_true, if_true, if_false, ite_true,
      ite_false, set_append_length, getD_append_length, s0, g0, hd]

theorem alertDetailsLoop_eq : ∀ (rest : List Alert) (pre : List String),
    alertDetailsLoop pre.length rest (pre ++ List.replicate rest.length "")
      = pre ++ rest.map alertDetail
  | [], pre => by simp [alertDetailsLoop]
  | a :: rest, pre => by
    have h := alertDetailsLoop_eq rest (pre ++ [alertDetail a])
    simp only [List.length_append, List.length_singleton, List.append_assoc,
      List.singleton_append] at h
    show alertDetailsLoop (pre.length + 1) rest
        (alertDetailsBody (pre ++ "" :: List.replicate rest.length "") pre.length a) = _
    rw [alertDetailsBody_at]
    exact h

/-- The slice `alertDetails` holds the fragment of each alert, in the order of
the alerts. -/
theorem alertDetails_eq_map (alerts : Alerts) :
    alertDetails alerts = alerts.Alerts.data.map alertDetail :=
  alertDetailsLoop_eq alerts.Alerts.data []

theorem alertDetail_eq (a : Alert) :
    alertDetail a =
      (if a.GeneratorURL = "" then
        (match a.Labels.lookup "instance" with
          | some (.string s) => String.mk (s.data.takeWhile (fun c => c ≠ ':'))
          | _ => "") ++
        (match a.Labels.lookup "job" with
          | some (.string j) => "[" ++ j ++ "]"
          | some job => "[" ++ printArg job 's' ++ "]"
          | none => "")
      else
        "<a href='" ++ a.GeneratorURL ++ "'>" ++
        ((match a.Labels.lookup "instance" with
          | some (.string s) => String.mk (s.data.takeWhile (fun c => c ≠ ':'))
          | _ => "") ++
        (match a.Labels.lookup "job" with
          | some (.string j) => "[" ++ j ++ "]"
          | some job => "[" ++ printArg job 's' ++ "]"
          | none => "")) ++ "</a>") := by
  have hempty : String.mk (List.takeWhile (fun c => decide (c ≠ ':')) "".data) = "" := by decide
  unfold alertDetail alertDetailsBody
  cases hi : a.Labels.lookup "instance" with
  | none =>
    cases hj : a.Labels.lookup "job" with
    | none => by_cases hu : a.GeneratorURL = "" <;> simp [hu, sprintf_link]
    | some job =>
      by_cases hu : a.GeneratorURL = "" <;> cases job <;>
        simp [hu, sprintf_link, sprintf_job, printArg_s_string, string_empty_append]
  | some inst =>
    cases hj : a.Labels.lookup "job" with
    | none =>
      by_cases hu : a.GeneratorURL = "" <;> cases inst <;>
        simp [hu, sprintf_link, split_colon_head_getD, assertString, string_empty_append, hempty]
    | some job =>
      by_cases hu : a.GeneratorURL = "" <;> cases inst <;> cases job <;>
        simp [hu, sprintf_link, sprintf_job, split_colon_head_getD, assertString,
          string_empty_append, hempty, printArg_s_string]

/-! ## `strings.Join` and `strings.ToUpper` against the library of Lean -/

theorem intercalate_go_eq (sep : String) : ∀ (l : List String) (acc a : String),
    String.intercalate.go (acc ++ a) sep l = acc ++ Join (a :: l) sep
  | [], _, _ => rfl
  | b :: bs, acc, a => by
    show String.intercalate.go (acc ++ a ++ sep ++ b) sep bs
      = acc ++ (a ++ sep ++ Join (b :: bs) sep)
    rw [intercalate_go_eq sep bs (acc ++ a ++ sep) b]
    simp only [String.append_assoc]

/-- The model of `strings.Join` is the `intercalate` of the library. -/
theorem Join_eq_intercalate (l : List String) (sep : String) :
    Join l sep = String.intercalate sep l := by
  cases l with
  | nil => rfl
  | cons a as =>
    have h := intercalate_go_eq sep as "" a
    rw [string_empty_append, string_empty_append] at h
    exact h.symm

theorem Join_cons_empty (a : String) (as : List String) : Join (a :: as) "" = a ++ Join as "" := by
  cases as with
  | nil => simp [Join]
  | cons b bs => simp [Join]

theorem foldl_append_eq_Join : ∀ (l : List String) (acc : String),
    l.foldl (fun r s => r ++ s) acc = acc ++ Join l ""
  | [], acc => by simp [Join]
  | a :: as, acc => by
    rw [List.foldl_cons, foldl_append_eq_Join as (acc ++ a), Join_cons_empty,
      String.append_assoc]

/-- Joining with the empty separator is concatenation. -/
theorem Join_empty_eq_join (l : List String) : Join l "" = String.join l := by
  have h := foldl_append_eq_Join l ""
  rw [string_empty_append] at h
  exact h.symm

theorem unicodeToUpper_eq (caseTable : Char → Char) (c : Char) :
    unicodeToUpper caseTable c = if c.toNat < 128 then c.toUpper else caseTable c := by
  have ha : 'a'.toNat = 97 := rfl
  have hz : 'z'.toNat = 122 := rfl
  have hA : 'A'.toNat = 65 := rfl
  unfold unicodeToUpper Char.toUpper
  simp only [ha, hz, hA]
  split_ifs <;> first
    | rfl
    | (exfalso; omega)

/-- The model of `strings.ToUpper` maps ASCII as `Char.toUpper` of the library
does and every other character through the case table. -/
theorem ToUpper_eq (caseTable : Char → Char) (s : String) :
    ToUpper caseTable s
      = String.mk (s.data.map (fun c => if c.toNat < 128 then c.toUpper else caseTable c)) := by
  unfold ToUpper
  congr 1
  exact List.map_congr_left (fun c _ => unicodeToUpper_eq caseTable c)

/-! ## The claims -/

/-- C1: with no template the message text is the fixed layout: the link to the
alerts of the receiver, the upper-cased status and the decimal number of
alerts, the group label lines joined with a comma and a blank, the common
label lines joined likewise, the annotation lines concatenated, a line break
and the per-alert fragments joined with a comma and a blank. The joins, the
concatenation, the upper-casing and the decimal are those of the library of
Lean, not the model's. On the scenario input the text is the scenario text
followed by the fragment of the single alert, and for a group without alerts
the count reads 0 and the fragment section is empty. -/
theorem fixedLayout_text (caseTable : Char → Char) (alerts : Alerts) :
    fixedLayout caseTable alerts =
      "<a href='" ++ alerts.ExternalURL ++ "/#/alerts?receiver=" ++ alerts.Receiver ++ "'>["
        ++ String.mk (alerts.Status.data.map
            (fun c => if c.toNat < 128 then c.toUpper else caseTable c))
        ++ ":" ++ Nat.repr alerts.Alerts.data.length
        ++ "]</a>\ngrouped by: " ++ String.intercalate ", " (groupLabels alerts)
        ++ "\nlabels: " ++ String.intercalate ", " (commonLabels alerts)
        ++ String.join (commonAnnotations alerts) ++ "\n"
        ++ String.intercalate ", " (alertDetails alerts)
    ∧ (∀ al : Alert,
        alerts.Status = "firing" → alerts.ExternalURL = "http://am" →
        alerts.Receiver = "ops" → alerts.Alerts.data = [al] →
        alerts.GroupLabels.entries.Perm [("alertname", .string "Down")] →
        alerts.CommonLabels.entries.Perm
          [("alertname", .string "Down"), ("severity", .string "page")] →
        alerts.CommonAnnotations.entries.Perm [("summary", .string "host down")] →
        fixedLayout caseTable alerts =
          "<a href='http://am/#/alerts?receiver=ops'>[FIRING:1]</a>\ngrouped by: alertname=<code>Down</code>\nlabels: severity=<code>page</code>\nsummary: <code>host down</code>\n"
            ++ alertDetail al)
    ∧ (alerts.Alerts.data = [] →
        String.intercalate ", " (alertDetails alerts) = "" ∧
        fixedLayout caseTable alerts =
          "<a href='" ++ alerts.ExternalURL ++ "/#/alerts?receiver=" ++ alerts.Receiver ++ "'>["
            ++ String.mk (alerts.Status.data.map
                (fun c => if c.toNat < 128 then c.toUpper else caseTable c))
            ++ ":0]</a>\ngrouped by: "
            ++ String.intercalate ", " (groupLabels alerts) ++ "\nlabels: "
            ++ String.intercalate ", " (commonLabels alerts)
            ++ String.join (commonAnnotations alerts) ++ "\n") := by
  have hmain := sprintf_layout alerts.ExternalURL alerts.Receiver
    (ToUpper caseTable alerts.Status) (Join (groupLabels alerts) ", ")
    (Join (commonLabels alerts) ", ") (Join (commonAnnotations alerts) "")
    (Join (alertDetails alerts) ", ") alerts.Alerts.data.length
  have hmain : fixedLayout caseTable alerts = _ := hmain
  rw [Join_empty_eq_join, Join_eq_intercalate, Join_eq_intercalate, Join_eq_intercalate,
    ToUpper_eq] at hmain
  refine ⟨hmain, ?_, ?_⟩
  · intro al hs hu hr ha hg hc hn
    have h1 : groupLabels alerts = ["alertname=<code>Down</code>"] := by
      have e : groupLabels alerts = groupLabels (scenarioAlerts zeroAlert) :=
        groupLabels_congr hg
      rw [e]; decide
    have h2 : commonLabels alerts = ["severity=<code>page</code>"] := by
      have e : commonLabels alerts = commonLabels (scenarioAlerts zeroAlert) :=
        commonLabels_congr hg (hc.trans (List.Perm.swap _ _ _))
      rw [e]; decide
    have h3 : commonAnnotations alerts = ["\nsummary: <code>host down</code>"] := by
      have e : commonAnnotations alerts = commonAnnotations (scenarioAlerts zeroAlert) :=
        commonAnnotations_congr hn
      rw [e]; decide
    have h4 : alertDetails alerts = [alertDetail al] := by
      rw [alertDetails_eq_map, ha]; rfl
    rw [hmain, h1, h2, h3, h4, hs, hu, hr, ha]
    have e : "<a href='" ++ "http://am" ++ "/#/alerts?receiver=" ++ "ops" ++ "'>["
        ++ String.mk ("firing".data.map
            (fun c => if c.toNat < 128 then c.toUpper else caseTable c))
        ++ ":" ++ Nat.repr [al].length
        ++ "]</a>\ngrouped by: " ++ String.intercalate ", " ["alertname=<code>Down</code>"]
        ++ "\nlabels: " ++ String.intercalate ", " ["severity=<code>page</code>"]
        ++ String.join ["\nsummary: <code>host down</code>"] ++ "\n"
        = "<a href='http://am/#/alerts?receiver=ops'>[FIRING:1]</a>\ngrouped by: alertname=<code>Down</code>\nlabels: severity=<code>page</code>\nsummary: <code>host down</code>\n" := by
      show "<a href='" ++ "http://am" ++ "/#/alerts?receiver=" ++ "ops" ++ "'>["
        ++ "FIRING" ++ ":" ++ Nat.repr 1
        ++ "]</a>\ngrouped by: " ++ String.intercalate ", " ["alertname=<code>Down</code>"]
        ++ "\nlabels: " ++ String.intercalate ", " ["severity=<code>page</code>"]
        ++ String.join ["\nsummary: <code>host down</code>"] ++ "\n" = _
      decide
    rw [e]
    rfl
  · intro ha
    have h4 : alertDetails alerts = [] := by
      rw [alertDetails_eq_map, ha]; rfl
    have h0 : Nat.repr 0 = "0" := by decide
    refine ⟨by rw [h4]; rfl, ?_⟩
    rw [hmain, h4, ha]
    apply String.ext
    simp [String.data_append, String.intercalate, h0]

/-- Witness of C1: the scenario group with a node-exporter alert; a group with
two group labels, two common labels that pass the filter, two annotations and
two alerts, whose status has the letter z; and a group without alerts. -/
theorem fixedLayout_text_witness :
    fixedLayout id (scenarioAlerts (nodeAlert "http://prom/graph")) =
      "<a href='http://am/#/alerts?receiver=ops'>[FIRING:1]</a>\ngrouped by: alertname=<code>Down</code>\nlabels: severity=<code>page</code>\nsummary: <code>host down</code>\n"
        ++ alertDetail (nodeAlert "http://prom/graph")
    ∧ fixedLayout id richAlerts =
      "<a href='http://am/#/alerts?receiver=ops'>[ZZ-FIRING:2]</a>\ngrouped by: alertname=<code>Down</code>, zone=<code>eu</code>\nlabels: severity=<code>page</code>, team=<code>db</code>\ndescription: <code>disk</code>\nsummary: <code>host down</code>\n<a href='U'>10.0.0.5[node]</a>, [api]"
    ∧ fixedLayout id zeroAlerts = "<a href='/#/alerts?receiver='>[:0]</a>\ngrouped by: \nlabels: \n" :=
  ⟨(fixedLayout_text id (scenarioAlerts (nodeAlert "http://prom/graph"))).2.1
      (nodeAlert "http://prom/graph") rfl rfl rfl rfl (List.Perm.refl _)
      (List.Perm.swap _ _ _) (List.Perm.refl _),
    (fixedLayout_text id richAlerts).1.trans (by decide),
    ((fixedLayout_text id zeroAlerts).2.2 rfl).2.trans (by decide)⟩

/-- C2: the common label lines are the lines of the keys of `commonLabels`
that are not keys of `groupLabels`: a key gets a line if and only if it is in
the common labels and not in the group labels, so a key of both maps gets
none, whatever the two values are. -/
theorem commonLabels_key_difference (alerts : Alerts) :
    commonLabels alerts =
      ((sortedKeys alerts.CommonLabels).filter
        (fun k => !(alerts.GroupLabels.lookup k).isSome)).map
      (fun k => k ++ "=<code>" ++ printArg (alerts.CommonLabels.index k) 's' ++ "</code>")
    ∧ (∀ k : String,
        k ∈ (sortedKeys alerts.CommonLabels).filter
            (fun k => !(alerts.GroupLabels.lookup k).isSome)
          ↔ (k ∈ alerts.CommonLabels.keys ∧ k ∉ alerts.GroupLabels.keys))
    ∧ (∀ (k : String) (v w : Any),
        (k, v) ∈ alerts.GroupLabels.entries → (k, w) ∈ alerts.CommonLabels.entries →
        k ∉ (sortedKeys alerts.CommonLabels).filter
            (fun k => !(alerts.GroupLabels.lookup k).isSome)) := by
  have hiff : ∀ k : String,
      k ∈ (sortedKeys alerts.CommonLabels).filter
          (fun k => !(alerts.GroupLabels.lookup k).isSome)
        ↔ (k ∈ alerts.CommonLabels.keys ∧ k ∉ alerts.GroupLabels.keys) := by
    intro k
    rw [List.mem_filter, mem_sortedKeys, ← GoMap.lookup_isSome alerts.GroupLabels k]
    simp
  refine ⟨commonLabels_eq_map alerts, hiff, ?_⟩
  intro k v w hv _ hmem
  exact ((hiff k).mp hmem).2 (List.mem_map_of_mem Prod.fst hv)

/-- Witness of C2: in the scenario group `alertname` is a key of both maps and
gets no common label line, `severity` gets one. -/
theorem commonLabels_key_difference_witness :
    "alertname" ∉ (sortedKeys (scenarioAlerts zeroAlert).CommonLabels).filter
        (fun k => !((scenarioAlerts zeroAlert).GroupLabels.lookup k).isSome)
    ∧ commonLabels (scenarioAlerts zeroAlert) = ["severity=<code>page</code>"] :=
  ⟨(commonLabels_key_difference (scenarioAlerts zeroAlert)).2.2 "alertname"
      (.string "Down") (.string "Down") (by decide) (by decide),
    (commonLabels_key_difference (scenarioAlerts zeroAlert)).1.trans (by decide)⟩

/-- C3: each of the three sequences lists its lines by key in strictly
ascending byte-wise order; the group label lines and the annotation lines have
one line for each key of their map, the common label lines one for each key
that passes the filter; an empty map gives an empty sequence. -/
theorem reducer_sorted_by_key (alerts : Alerts) :
    (groupLabels alerts = (sortedKeys alerts.GroupLabels).map
        (fun k => k ++ "=<code>" ++ printArg (alerts.GroupLabels.index k) 's' ++ "</code>")
      ∧ (sortedKeys alerts.GroupLabels).Pairwise (fun a b => stringLess a b = true)
      ∧ (sortedKeys alerts.GroupLabels).Perm alerts.GroupLabels.keys
      ∧ (groupLabels alerts).length = alerts.GroupLabels.entries.length)
    ∧ (commonAnnotations alerts = (sortedKeys alerts.CommonAnnotations).map
        (fun k => "\n" ++ k ++ ": <code>" ++ printArg (alerts.CommonAnnotations.index k) 's'
          ++ "</code>")
      ∧ (sortedKeys alerts.CommonAnnotations).Pairwise (fun a b => stringLess a b = true)
      ∧ (sortedKeys alerts.CommonAnnotations).Perm alerts.CommonAnnotations.keys
      ∧ (commonAnnotations alerts).length = alerts.CommonAnnotations.entries.length)
    ∧ (commonLabels alerts =
        ((sortedKeys alerts.CommonLabels).filter
          (fun k => !(alerts.GroupLabels.lookup k).isSome)).map
        (fun k => k ++ "=<code>" ++ printArg (alerts.CommonLabels.index k) 's' ++ "</code>")
      ∧ ((sortedKeys alerts.CommonLabels).filter
          (fun k => !(alerts.GroupLabels.lookup k).isSome)).Pairwise
            (fun a b => stringLess a b = true))
    ∧ (alerts.GroupLabels.entries = [] → groupLabels alerts = [])
    ∧ (alerts.CommonLabels.entries = [] → commonLabels alerts = [])
    ∧ (alerts.CommonAnnotations.entries = [] → commonAnnotations alerts = []) := by
  have hperm : ∀ m : GoMap, (sortedKeys m).Perm m.keys := by
    intro m; rw [sortedKeys_eq]; exact sortStrings_perm _
  have hnil : ∀ m : GoMap, m.entries = [] → sortedKeys m = [] := by
    intro m hm
    rw [sortedKeys_eq]
    unfold GoMap.keys
    rw [hm]; rfl
  refine ⟨⟨groupLabels_eq_map alerts, sortedKeys_strict _, hperm _, ?_⟩,
    ⟨commonAnnotations_eq_map alerts, sortedKeys_strict _, hperm _, ?_⟩,
    ⟨commonLabels_eq_map alerts, (sortedKeys_strict _).filter _⟩, ?_, ?_, ?_⟩
  · rw [groupLabels_eq_map, List.length_map, (hperm _).length_eq]
    simp [GoMap.keys]
  · rw [commonAnnotations_eq_map, List.length_map, (hperm _).length_eq]
    simp [GoMap.keys]
  · intro h; rw [groupLabels_eq_map, hnil _ h]; rfl
  · intro h; rw [commonLabels_eq_map, hnil _ h]; rfl
  · intro h; rw [commonAnnotations_eq_map, hnil _ h]; rfl

/-- Witness of C3: a group without labels and annotations has no lines. -/
theorem reducer_sorted_by_key_witness :
    groupLabels zeroAlerts = [] ∧ commonLabels zeroAlerts = []
      ∧ commonAnnotations zeroAlerts = [] :=
  ⟨(reducer_sorted_by_key zeroAlerts).2.2.2.1 rfl,
    (reducer_sorted_by_key zeroAlerts).2.2.2.2.1 rfl,
    (reducer_sorted_by_key zeroAlerts).2.2.2.2.2 rfl⟩

/-- C4 (amended): the slice of fragments has one element for each alert, in
the order of the alerts, and for every alert whose `job` label is missing or a
string the element is the host part of its `instance` label (the text before
the first colon of a string value, empty when the label is missing or not a
string) followed by the bracketed `job` label when there is one, the whole
wrapped in a link to the generator URL when that is not empty. -/
theorem alertDetail_fragment (alerts : Alerts) :
    (alertDetails alerts).length = alerts.Alerts.data.length
    ∧ ∀ (i : Nat) (a : Alert), alerts.Alerts.data[i]? = some a →
      (∀ job : Any, a.Labels.lookup "job" = some job → ∃ j : String, job = .string j) →
      (alertDetails alerts)[i]? = some
        (if a.GeneratorURL = "" then
          (match a.Labels.lookup "instance" with
            | some (.string s) => String.mk (s.data.takeWhile (fun c => c ≠ ':'))
            | _ => "") ++
          (match a.Labels.lookup "job" with
            | some (.string j) => "[" ++ j ++ "]"
            | _ => "")
        else
          "<a href='" ++ a.GeneratorURL ++ "'>" ++
          ((match a.Labels.lookup "instance" with
            | some (.string s) => String.mk (s.data.takeWhile (fun c => c ≠ ':'))
            | _ => "") ++
          (match a.Labels.lookup "job" with
            | some (.string j) => "[" ++ j ++ "]"
            | _ => "")) ++ "</a>") := by
  rw [alertDetails_eq_map]
  refine ⟨List.length_map _ _, ?_⟩
  intro i a hi hjob
  rw [List.getElem?_map, hi, Option.map_some', alertDetail_eq]
  cases hj : a.Labels.lookup "job" with
  | none => rfl
  | some job =>
    obtain ⟨j, rfl⟩ := hjob job hj
    rfl

/-- Witness of C4: in a group of three alerts the node alert with the generator
URL `U` gives the link around `10.0.0.5[node]` and the alert without labels and
URL gives the empty string, whatever the third alert is. -/
theorem alertDetail_fragment_witness :
    (alertDetails fragmentAlerts)[0]? = some "<a href='U'>10.0.0.5[node]</a>"
    ∧ (alertDetails fragmentAlerts)[1]? = some "" :=
  ⟨((alertDetail_fragment fragmentAlerts).2 0 (nodeAlert "U") rfl (by
      intro job hj
      have h : (nodeAlert "U").Labels.lookup "job" = some (.string "node") := by decide
      rw [h] at hj
      exact ⟨"node", (Option.some.inj hj).symm⟩)).trans (by decide),
    ((alertDetail_fragment fragmentAlerts).2 1 zeroAlert rfl (by
      intro job hj
      have h : zeroAlert.Labels.lookup "job" = none := by decide
      rw [h] at hj
      cases hj)).trans (by decide)⟩

/-- C4, counterexample: an alert whose `job` label is the number 3 gets the
fragment `[%!s(float64=3)]`, not `[3]`. -/
theorem alertDetails_numeric_job :
    alertDetails numericJobAlerts = ["[%!s(float64=3)]"]
    ∧ alertDetails numericJobAlerts ≠ ["[3]"] := by
  decide

/-- C9: the fixed layout does not depend on the order in which the three maps
are enumerated: two alert groups with the same alerts, URL, receiver and
status, whose group labels, common labels and common annotations hold the same
entries in any order, give the same text. -/
theorem fixedLayout_order_independent (caseTable : Char → Char) (a b : Alerts)
    (hAlerts : b.Alerts.data = a.Alerts.data)
    (hURL : b.ExternalURL = a.ExternalURL)
    (hReceiver : b.Receiver = a.Receiver)
    (hStatus : b.Status = a.Status)
    (hg : b.GroupLabels.entries.Perm a.GroupLabels.entries)
    (hc : b.CommonLabels.entries.Perm a.CommonLabels.entries)
    (hn : b.CommonAnnotations.entries.Perm a.CommonAnnotations.entries) :
    fixedLayout caseTable b = fixedLayout caseTable a := by
  unfold fixedLayout alertDetails
  rw [hAlerts, hURL, hReceiver, hStatus, groupLabels_congr hg, commonLabels_congr hg hc,
    commonAnnotations_congr hn]

/-- Witness of C9: the scenario group with its common labels enumerated in
either order. -/
theorem fixedLayout_order_independent_witness :
    (scenarioAlertsSwapped zeroAlert).CommonLabels.entries
        ≠ (scenarioAlerts zeroAlert).CommonLabels.entries
    ∧ fixedLayout id (scenarioAlertsSwapped zeroAlert)
        = fixedLayout id (scenarioAlerts zeroAlert) :=
  ⟨by decide,
    fixedLayout_order_independent id (scenarioAlerts zeroAlert) (scenarioAlertsSwapped zeroAlert)
      rfl rfl rfl rfl (List.Perm.refl _) (List.Perm.swap _ _ _) (List.Perm.refl _)⟩

/-- C6, the code at the failing inputs: a label or annotation value that is
not a string is printed with the verb `%s`, which `fmt` answers with its
bad-verb text, so the value `true` gives `%!s(bool=true)` and the number 3
gives `%!s(float64=3)` in the group label line, the common label line, the
annotation line and the job part; none of them is the plain text of the
value. -/
theorem nonstring_value_badverb :
    groupLabels (groupLabelOnly "k" (.bool true)) = ["k=<code>%!s(bool=true)</code>"]
    ∧ groupLabels (groupLabelOnly "k" (.float64 ⟨"3"⟩)) = ["k=<code>%!s(float64=3)</code>"]
    ∧ commonLabels (commonLabelOnly "k" (.bool true)) = ["k=<code>%!s(bool=true)</code>"]
    ∧ commonLabels (commonLabelOnly "k" (.float64 ⟨"3"⟩)) = ["k=<code>%!s(float64=3)</code>"]
    ∧ commonAnnotations (commonAnnotationOnly "k" (.bool true))
        = ["\nk: <code>%!s(bool=true)</code>"]
    ∧ alertDetail (jobAlert (.float64 ⟨"3"⟩)) = "[%!s(float64=3)]"
    ∧ groupLabels (groupLabelOnly "k" (.bool true)) ≠ ["k=<code>true</code>"]
    ∧ groupLabels (groupLabelOnly "k" (.float64 ⟨"3"⟩)) ≠ ["k=<code>3</code>"]
    ∧ commonAnnotations (commonAnnotationOnly "k" (.bool true)) ≠ ["\nk: <code>true</code>"]
    ∧ alertDetail (jobAlert (.float64 ⟨"3"⟩)) ≠ "[3]" := by
  decide

/-- C7 (amended): a request whose chat id parses, whose decoded alerts
`json.Marshal` accepts and whose text is composed (no template, or a template
that renders without error) hands one message to `bot.Send` first: the
composed text, for that chat, in HTML mode, with previews disabled. When that
send succeeds the answer is 200 and nothing else is sent; when it fails the
answer is 503 with the error text and the composed text, the fixed notice is
sent once to the same chat, and the answer does not depend on how that second
send ends. -/
theorem deliver_outcome (caseTable : Char → Char) (template : Option Template) (send : SendFn)
    (p : Proc) (req : Request) (chatid : Int)
    (hid : req.chatid = .ok chatid)
    (hmarshal : Marshal (Bind p.alerts req.body) = .ok ())
    (hrender : ∀ t, template = some t → (t (Bind p.alerts req.body)).2 = none) :
    (template = none →
      (alertHandler caseTable template send p req).proc.msgtext
        = fixedLayout caseTable (Bind p.alerts req.body))
    ∧ (∀ t, template = some t →
      (alertHandler caseTable template send p req).proc.msgtext
        = p.bytesBuff ++ (t (Bind p.alerts req.body)).1)
    ∧ (∀ m : Message,
        send 0 { ChatID := chatid,
                 Text := (alertHandler caseTable template send p req).proc.msgtext,
                 ParseMode := "HTML", DisableWebPagePreview := true } = .ok m →
        (alertHandler caseTable template send p req).response
            = .string 200 "telegram msg sent."
          ∧ (alertHandler caseTable template send p req).sent =
            [{ ChatID := chatid,
               Text := (alertHandler caseTable template send p req).proc.msgtext,
               ParseMode := "HTML", DisableWebPagePreview := true }])
    ∧ (∀ err : String,
        send 0 { ChatID := chatid,
                 Text := (alertHandler caseTable template send p req).proc.msgtext,
                 ParseMode := "HTML", DisableWebPagePreview := true } = .error err →
        (alertHandler caseTable template send p req).response
            = .json 503 [("err", .string err), ("message", .message zeroMessage),
                ("srcmsg", .string (alertHandler caseTable template send p req).proc.msgtext)]
          ∧ (alertHandler caseTable template send p req).sent =
            [{ ChatID := chatid,
               Text := (alertHandler caseTable template send p req).proc.msgtext,
               ParseMode := "HTML", DisableWebPagePreview := true },
             { ChatID := chatid, Text := "Error sending message, checkout logs",
               ParseMode := "", DisableWebPagePreview := false }])
    ∧ (∀ send2 : SendFn, (∀ msg, send2 0 msg = send 0 msg) →
        (alertHandler caseTable template send2 p req).response
          = (alertHandler caseTable template send p req).response) := by
  have hdel : ∀ (s : SendFn) (text : String),
      (∀ m, s 0 { ChatID := chatid, Text := text, ParseMode := "HTML",
                  DisableWebPagePreview := true } = .ok m →
        deliver s chatid text = (.string 200 "telegram msg sent.",
          [{ ChatID := chatid, Text := text, ParseMode := "HTML",
             DisableWebPagePreview := true }]))
      ∧ (∀ err, s 0 { ChatID := chatid, Text := text, ParseMode := "HTML",
                      DisableWebPagePreview := true } = .error err →
        deliver s chatid text = (.json 503 [("err", .string err),
            ("message", .message zeroMessage), ("srcmsg", .string text)],
          [{ ChatID := chatid, Text := text, ParseMode := "HTML",
             DisableWebPagePreview := true },
           { ChatID := chatid, Text := "Error sending message, checkout logs",
             ParseMode := "", DisableWebPagePreview := false }])) := by
    intro s text
    constructor
    · intro m hm
      simp only [deliver, NewMessage, ModeHTML, StatusOK, hm]
    · intro err hm
      simp only [deliver, NewMessage, ModeHTML, StatusServiceUnavailable, hm]
  have hresp : ∀ (s s2 : SendFn) (text : String), (∀ msg, s2 0 msg = s 0 msg) →
      (deliver s2 chatid text).1 = (deliver s chatid text).1 := by
    intro s s2 text h
    simp only [deliver, h]
  cases template with
  | none =>
    have hh : ∀ s : SendFn, alertHandler caseTable none s p req =
        ⟨{ p with alerts := Bind p.alerts req.body,
                  msgtext := fixedLayout caseTable (Bind p.alerts req.body) },
          (deliver s chatid (fixedLayout caseTable (Bind p.alerts req.body))).1,
          (deliver s chatid (fixedLayout caseTable (Bind p.alerts req.body))).2⟩ := by
      intro s
      simp only [alertHandler, hid, hmarshal]
    refine ⟨fun _ => (by rw [hh]), fun t ht => (by cases ht), ?_, ?_, ?_⟩
    · intro m hm
      rw [hh] at hm ⊢
      simp only [(hdel send _).1 m hm, and_self]
    · intro err hm
      rw [hh] at hm ⊢
      simp only [(hdel send _).2 err hm, and_self]
    · intro s2 h
      rw [hh, hh]
      exact hresp send s2 _ h
  | some t =>
    have hr := hrender t rfl
    have hh : ∀ s : SendFn, alertHandler caseTable (some t) s p req =
        ⟨{ alerts := Bind p.alerts req.body,
           bytesBuff := p.bytesBuff ++ (t (Bind p.alerts req.body)).1,
           msgtext := p.bytesBuff ++ (t (Bind p.alerts req.body)).1 },
          (deliver s chatid (p.bytesBuff ++ (t (Bind p.alerts req.body)).1)).1,
          (deliver s chatid (p.bytesBuff ++ (t (Bind p.alerts req.body)).1)).2⟩ := by
      intro s
      simp only [alertHandler, hid, hmarshal, hr]
    refine ⟨fun h => (by cases h), fun t2 ht => ?_, ?_, ?_, ?_⟩
    · cases ht
      rw [hh]
    · intro m hm
      rw [hh] at hm ⊢
      simp only [(hdel send _).1 m hm, and_self]
    · intro err hm
      rw [hh] at hm ⊢
      simp only [(hdel send _).2 err hm, and_self]
    · intro s2 h
      rw [hh, hh]
      exact hresp send s2 _ h

/-- Witness of C7: a request for chat 42 whose first send fails is answered
with status 503, the error text and the composed text, after the composed text
and the notice were each handed to `bot.Send` once; with the status template
and a send that succeeds, the rendered text is the only message sent and the
answer is 200. -/
theorem deliver_outcome_witness :
    (alertHandler id none sendFailThenOk initProc (statusRequest "firing")).response
        = .json 503 [("err", .string "Bad Request: chat not found"),
            ("message", .message zeroMessage),
            ("srcmsg", .string "<a href='/#/alerts?receiver='>[FIRING:0]</a>\ngrouped by: \nlabels: \n")]
    ∧ (alertHandler id none sendFailThenOk initProc (statusRequest "firing")).sent
        = [{ ChatID := 42,
             Text := "<a href='/#/alerts?receiver='>[FIRING:0]</a>\ngrouped by: \nlabels: \n",
             ParseMode := "HTML", DisableWebPagePreview := true },
           { ChatID := 42, Text := "Error sending message, checkout logs",
             ParseMode := "", DisableWebPagePreview := false }]
    ∧ ((alertHandler id (some statusTemplate) sendOk initProc (statusRequest "resolved")).response
        = .string 200 "telegram msg sent."
      ∧ (alertHandler id (some statusTemplate) sendOk initProc (statusRequest "resolved")).sent
        = [{ ChatID := 42, Text := "resolved", ParseMode := "HTML",
             DisableWebPagePreview := true }]) :=
  ⟨((deliver_outcome id none sendFailThenOk initProc (statusRequest "firing") 42 rfl rfl
      (fun _ h => by cases h)).2.2.2.1 "Bad Request: chat not found" rfl).1.trans (by decide),
    ((deliver_outcome id none sendFailThenOk initProc (statusRequest "firing") 42 rfl rfl
      (fun _ h => by cases h)).2.2.2.1 "Bad Request: chat not found" rfl).2.trans (by decide),
    (deliver_outcome id (some statusTemplate) sendOk initProc (statusRequest "resolved") 42 rfl
      rfl (fun _ h => by cases h; rfl)).2.2.1 { zeroMessage with Text := "resolved" } rfl⟩

/-- C7, counterexample: two requests for chat 42, a parseable chat id, after
which no message has been handed to `bot.Send`. With a template that fails
the handler panics; with a body whose group label is a number too large for a
float64 the encoding of `alerts` fails and the handler returns without an
answer. -/
theorem deliver_not_reached :
    (alertHandler id (some failingTemplate) sendOk initProc (statusRequest "firing")).sent = []
    ∧ (alertHandler id (some failingTemplate) sendOk initProc (statusRequest "firing")).response
        = .panic "template: error"
    ∧ (alertHandler id none sendOk initProc infiniteRequest).sent = []
    ∧ (alertHandler id none sendOk initProc infiniteRequest).response = .empty := by
  decide

/-- C5, the code at the failing input: with the template that prints the
status, two requests with status `resolved` are handled one after the other;
the first is sent `resolved`, the second is sent `resolvedresolved`, because
the template writes to the buffer `bytesBuff` of `main`, which is never reset,
and the text sent is the whole buffer. -/
theorem template_buffer_accumulates :
    (serve id (some statusTemplate) initProc
        [(statusRequest "resolved", sendOk), (statusRequest "resolved", sendOk)]).map
      (fun h => h.sent.map (fun m => m.Text))
      = [["resolved"], ["resolvedresolved"]]
    ∧ (serve id (some statusTemplate) initProc
        [(statusRequest "firing", sendOk), (statusRequest "resolved", sendOk)]).map
      (fun h => h.sent.map (fun m => m.Text))
      = [["firing"], ["firingresolved"]] := by
  decide

/-- The text the template branch sends is the buffer as the earlier requests
left it followed by what the template writes for this request. -/
theorem template_text_is_buffer (caseTable : Char → Char) (t : Template) (send : SendFn)
    (p : Proc) (req : Request) (chatid : Int) (hid : req.chatid = .ok chatid)
    (hmarshal : Marshal (Bind p.alerts req.body) = .ok ())
    (hrender : (t (Bind p.alerts req.body)).2 = none) :
    (alertHandler caseTable (some t) send p req).proc.msgtext
        = p.bytesBuff ++ (t (Bind p.alerts req.body)).1
    ∧ (alertHandler caseTable (some t) send p req).proc.bytesBuff
        = p.bytesBuff ++ (t (Bind p.alerts req.body)).1
    ∧ (alertHandler caseTable (some t) send p req).sent.head?
        = some { ChatID := chatid, Text := p.bytesBuff ++ (t (Bind p.alerts req.body)).1,
                 ParseMode := "HTML", DisableWebPagePreview := true } := by
  simp only [alertHandler, hid, hmarshal, hrender, deliver, NewMessage, ModeHTML]
  cases send 0 _ <;> simp

/-- C8, the code at the failing input: a first request with receiver `ops`
and the group label `alertname`, then a second request whose body has the
group label `job` and no receiver. The text of the second request still
carries the receiver and the group label of the first, while the same body
handled by a fresh process gives a text without them. -/
theorem alerts_variable_shared :
    (serve id none initProc
        [(labelRequest "firing" (.value "ops") "alertname" "Down", sendOk),
         (labelRequest "resolved" .absent "job" "node", sendOk)]).map
      (fun h => h.sent.map (fun m => m.Text))
      = [["<a href='/#/alerts?receiver=ops'>[FIRING:0]</a>\ngrouped by: alertname=<code>Down</code>\nlabels: \n"],
         ["<a href='/#/alerts?receiver=ops'>[RESOLVED:0]</a>\ngrouped by: alertname=<code>Down</code>, job=<code>node</code>\nlabels: \n"]]
    ∧ (serve id none initProc
        [(labelRequest "resolved" .absent "job" "node", sendOk)]).map
      (fun h => h.sent.map (fun m => m.Text))
      = [["<a href='/#/alerts?receiver='>[RESOLVED:0]</a>\ngrouped by: job=<code>node</code>\nlabels: \n"]] := by
  decide

/-- C10, the code at the failing input: an update without a message makes the
loop body dereference a nil pointer; the listener panics there, and the
update that follows, which reports the bot joining a group, is never
announced, although the listener alone would announce it. -/
theorem listener_nil_message :
    onUpdate botUser editedUpdate = none
    ∧ telegramBot botUser [editedUpdate, joinUpdate] = ⟨[], true⟩
    ∧ telegramBot botUser [joinUpdate]
        = ⟨[{ ChatID := -1001, Text := "Chat id is '-1001'", ParseMode := "",
              DisableWebPagePreview := false }], false⟩ := by
  decide

/-- An update that carries a message with its chat is handled as the listener
is meant to: one announcement when the new member is the bot and the chat is a
group, nothing otherwise. -/
theorem onUpdate_with_message (self : User) (id : Int) (m : Message) (chat : Chat)
    (hchat : m.Chat = some chat) :
    onUpdate self ⟨id, some m⟩ =
      some (match m.NewChatMember with
        | some member =>
          if member.UserName = self.UserName ∧ chat.Type_ = "group" then
            [{ ChatID := chat.ID, Text := "Chat id is '" ++ fmtInt chat.ID ++ "'",
               ParseMode := "", DisableWebPagePreview := false }]
          else []
        | none => []) := by
  unfold onUpdate
  cases hm : m.NewChatMember with
  | none => simp [hm]
  | some member =>
    by_cases h1 : member.UserName = self.UserName <;>
      by_cases h2 : chat.Type_ = "group" <;>
      simp [hm, hchat, h1, h2, NewMessage, sprintf_chatid]

/-! ## Sample evaluations of the library functions -/

theorem Split_samples :
    Split "a:b:c" ":" = ["a", "b", "c"] ∧ Split ":" ":" = ["", ""] ∧ Split "" ":" = [""]
    ∧ Split "10.0.0.5:9100" ":" = ["10.0.0.5", "9100"] ∧ Split "a--b-c" "--" = ["a", "b-c"]
    ∧ Split "abc" "" = ["a", "b", "c"] := by
  decide

theorem bytes_samples :
    bytes "a\u00e9\u20ac" = [97, 195, 169, 226, 130, 172]
    ∧ (String.toUTF8 "a\u00e9\u20ac😀").data.toList.map UInt8.toNat
        = bytes "a\u00e9\u20ac😀"
    ∧ stringLess "Zebra" "apple" = true
    ∧ sortStrings ["b", "a", "B", "\u00e9", "z"] = ["B", "a", "b", "z", "\u00e9"] := by
  decide

theorem Sprintf_samples :
    Sprintf "%d%%" [.int 5] = "5%" ∧ Sprintf "%s" [] = "%!s(MISSING)"
    ∧ Sprintf "x" [.int 1] = "x%!(EXTRA int=1)" ∧ Sprintf "%d" [.string "a"] = "%!d(string=a)"
    ∧ Sprintf "%" [] = "%!(NOVERB)" ∧ Sprintf "%s" [.nil] = "%!s(<nil>)"
    ∧ Sprintf "%v %v %v" [.bool false, .float64 ⟨"1.5"⟩, .int64 (-7)] = "false 1.5 -7" := by
  decide

theorem ToUpper_samples :
    ToUpper id "firing" = "FIRING" ∧ ToUpper id "Resolved-1" = "RESOLVED-1" := by
  decide

/-! ## What the shared variables keep from earlier requests -/

theorem printArg_s_other (v : Any) (h : ∀ s, v ≠ .string s) :
    printArg v 's' = badVerb 's' v := by
  cases v with
  | string s => exact absurd rfl (h s)
  | _ => simp [printArg]

theorem GoMap.keys_set (m : GoMap) (k : String) (v : Any) {x : String} (hx : x ∈ m.keys) :
    x ∈ (m.set k v).keys := by
  unfold GoMap.keys at hx ⊢
  obtain ⟨e, he, hxe⟩ := List.mem_map.mp hx
  by_cases hk : x = k
  · simp [GoMap.set, hk]
  · have hne : e.1 ≠ k := by rw [hxe]; exact hk
    simp only [GoMap.set, List.map_cons, List.mem_cons]
    right
    exact List.mem_map.mpr ⟨e, List.mem_filter.mpr ⟨he, by simpa using hne⟩, hxe⟩

theorem GoMap.lookup_set_ne (m : GoMap) (k : String) (v : Any) {x : String} (hx : x ≠ k) :
    (m.set k v).lookup x = m.lookup x := by
  have hkx : ¬ k = x := fun h => hx h.symm
  have hfilter : ∀ l : List (String × Any),
      (l.filter (fun e => e.1 ≠ k)).find? (fun e => e.1 = x) = l.find? (fun e => e.1 = x) := by
    intro l
    induction l with
    | nil => rfl
    | cons e es ih =>
      by_cases hek : e.1 = k
      · have hex : ¬ e.1 = x := fun h => hx (h.symm.trans hek)
        rw [List.filter_cons_of_neg (by simpa using hek),
          List.find?_cons_of_neg _ (by simpa using hex), ih]
      · rw [List.filter_cons_of_pos (by simpa using hek)]
        by_cases hex : e.1 = x
        · rw [List.find?_cons_of_pos _ (by simpa using hex),
            List.find?_cons_of_pos _ (by simpa using hex)]
        · rw [List.find?_cons_of_neg _ (by simpa using hex),
            List.find?_cons_of_neg _ (by simpa using hex), ih]
  unfold GoMap.lookup
  simp only [GoMap.set, List.find?_cons, hkx, decide_False]
  rw [hfilter]

/-- Decoding a JSON object into a map keeps every key the map had. -/
theorem decodeMap_keeps_keys : ∀ (kvs : List (String × Any)) (old : GoMap) (k : String),
    k ∈ old.keys → k ∈ (decodeMap old (.value kvs)).keys
  | [], _, _, hk => hk
  | kv :: rest, old, k, hk =>
    decodeMap_keeps_keys rest (old.set kv.1 kv.2) k (GoMap.keys_set old kv.1 kv.2 hk)

/-- Decoding a JSON object into a map keeps the value of every key the object
does not mention. -/
theorem decodeMap_keeps_values : ∀ (kvs : List (String × Any)) (old : GoMap) (k : String),
    k ∉ kvs.map Prod.fst → (decodeMap old (.value kvs)).lookup k = old.lookup k
  | [], _, _, _ => rfl
  | kv :: rest, old, k, hk => by
    have h1 : k ≠ kv.1 := fun h => hk (by simp [h])
    have h2 : k ∉ rest.map Prod.fst := fun h => hk (by simp only [List.map_cons, List.mem_cons]; exact Or.inr h)
    have ih := decodeMap_keeps_values rest (old.set kv.1 kv.2) k h2
    rw [GoMap.lookup_set_ne old kv.1 kv.2 h1] at ih
    exact ih

/-! ## Requests that do not reach the delivery -/

/-- A chat id that does not parse is answered with status 503 and the parse
error; nothing is decoded and nothing is sent. -/
theorem alertHandler_bad_chatid (caseTable : Char → Char) (template : Option Template)
    (send : SendFn) (p : Proc) (req : Request) (err : String) (h : req.chatid = .error err) :
    (alertHandler caseTable template send p req).response = .json 503 [("err", .string err)]
    ∧ (alertHandler caseTable template send p req).sent = []
    ∧ (alertHandler caseTable template send p req).proc.alerts = p.alerts := by
  simp [alertHandler, h, StatusServiceUnavailable]

/-- When `json.Marshal(alerts)` fails the handler returns at line 141: no
answer is written, nothing is composed and nothing is sent. -/
theorem alertHandler_marshal_error (caseTable : Char → Char) (template : Option Template)
    (send : SendFn) (p : Proc) (req : Request) (chatid : Int) (err : String)
    (hid : req.chatid = .ok chatid)
    (hmarshal : Marshal (Bind p.alerts req.body) = .error err) :
    (alertHandler caseTable template send p req).response = .empty
    ∧ (alertHandler caseTable template send p req).sent = []
    ∧ (alertHandler caseTable template send p req).proc.msgtext = p.msgtext
    ∧ (alertHandler caseTable template send p req).proc.bytesBuff = p.bytesBuff := by
  simp [alertHandler, hid, hmarshal]

/-- A template that fails makes the handler panic: nothing is sent, the fixed
layout is not used instead, and what the template wrote stays in the buffer. -/
theorem alertHandler_template_error (caseTable : Char → Char) (t : Template) (send : SendFn)
    (p : Proc) (req : Request) (chatid : Int) (err : String) (hid : req.chatid = .ok chatid)
    (hmarshal : Marshal (Bind p.alerts req.body) = .ok ())
    (herr : (t (Bind p.alerts req.body)).2 = some err) :
    (alertHandler caseTable (some t) send p req).response = .panic err
    ∧ (alertHandler caseTable (some t) send p req).sent = []
    ∧ (alertHandler caseTable (some t) send p req).proc.bytesBuff
        = p.bytesBuff ++ (t (Bind p.alerts req.body)).1 := by
  simp [alertHandler, hid, hmarshal, herr]

/-! ## The listener on updates that carry a message -/

theorem telegramBot_cons (self : User) (update : Update) (rest : List Update)
    (msgs : List MessageConfig) (h : onUpdate self update = some msgs) :
    telegramBot self (update :: rest)
      = ⟨msgs ++ (telegramBot self rest).sent, (telegramBot self rest).panicked⟩ := by
  simp [telegramBot, h]

theorem telegramBot_no_panic (self : User) : ∀ (updates : List Update),
    (∀ u ∈ updates, ∃ m chat, u.Message = some m ∧ m.Chat = some chat) →
    (telegramBot self updates).panicked = false
  | [], _ => rfl
  | u :: us, h => by
    obtain ⟨m, chat, hm, hc⟩ := h u (List.mem_cons_self _ _)
    have hu : u = ⟨u.UpdateID, some m⟩ := by
      cases u with
      | mk i msg => simp at hm; simp [hm]
    have ho := onUpdate_with_message self u.UpdateID m chat hc
    rw [← hu] at ho
    rw [telegramBot_cons self u us _ ho]
    exact telegramBot_no_panic self us (fun x hx => h x (List.mem_cons_of_mem _ hx))

end PrometheusBot
